import Mathlib

/-!
Verification development for the Yonsei_Guide scraping/caching/aggregation core.

The TypeScript source is shallowly embedded:
  - the cheerio HTML layer is abstracted as pre-queried documents (a record of
    the element lists each class selector returns, with each element exposing
    the string results of the sub-selectors the source reads);
  - axios network calls are abstracted as oracle parameters of type
    String to Except AxiosErr _, and each modelled operation additionally
    returns the list of URLs it requested;
  - JavaScript Date values produced by Date.now / new Date() are modelled as
    Nat epoch milliseconds (or, when only constructed from scraped text and
    never inspected, as an opaque wrapper around that text);
  - JavaScript Map is modelled as an association list in insertion order with
    unique keys (set on an existing key updates in place, otherwise appends);
  - thrown exceptions are modelled with Except over an error datatype whose
    constructors mirror the classes of src/errors/ScrapingError.ts, plus a
    genericError constructor for plain new Error(...) throws.
-/

/-- Error values thrown by the scraping core.  networkError, parseError and
authenticationError mirror the classes of src/errors/ScrapingError.ts (the
NetworkError fields are message, kind, retryAfter, statusCode; the extra
platform/system tag some variants pass is dropped as no claim reads it);
genericError models a plain new Error(message). -/
inductive ScrapeErr where
  | networkError (message : String) (kind : String)
      (retryAfter : Option Nat) (statusCode : Option Nat)
  | parseError (message : String)
  | authenticationError (message : String)
  | genericError (message : String)
deriving DecidableEq, Repr

/-- Message carried by an error value; models getErrorMessage /
error.message (the utils/typeGuards helper is not in the sources; it returns
the message of an Error instance). -/
def ScrapeErr.message : ScrapeErr → String
  | .networkError m _ _ _ => m
  | .parseError m => m
  | .authenticationError m => m
  | .genericError m => m

/-- Failure of an axios request: message, HTTP status (if a response arrived)
and the parsed Retry-After header (if present). -/
structure AxiosErr where
  message : String
  statusCode : Option Nat
  retryAfter : Option Nat
deriving DecidableEq, Repr

/-- JavaScript or-default on a possibly absent string: s || d is d when the
property is absent (none) or the empty string (falsy), s otherwise. -/
def jsOrStr (o : Option String) (d : String) : String :=
  match o with
  | none => d
  | some s => if s = "" then d else s

/-- Substring test, modelling JavaScript String.prototype.includes. -/
def jsIncludes (s sub : String) : Bool :=
  (List.range (s.toList.length + 1)).any fun i => sub.toList.isPrefixOf (s.toList.drop i)

/-- Lowercasing, modelling String.prototype.toLowerCase on the character
list (ASCII letters are mapped, other characters are untouched); written on
toList so that it evaluates inside the kernel. -/
def jsToLower (s : String) : String :=
  String.mk (s.toList.map Char.toLower)

/-- Uppercasing, modelling String.prototype.toUpperCase, as jsToLower. -/
def jsToUpper (s : String) : String :=
  String.mk (s.toList.map Char.toUpper)

/-- Worker of jsSetDedup: walk the list keeping the elements already seen,
skipping an element that was seen before and keeping a fresh one. -/
def jsSetDedupAux {α : Type} [DecidableEq α] (seen : List α) : List α → List α
  | [] => []
  | x :: xs =>
      if x ∈ seen then jsSetDedupAux seen xs
      else x :: jsSetDedupAux (seen ++ [x]) xs

/-- First-occurrence deduplication, modelling the JavaScript idiom
Array.from(new Set(xs)): a Set iterates in insertion order and ignores
re-insertions, so the first occurrence of each element survives. -/
def jsSetDedup {α : Type} [DecidableEq α] (l : List α) : List α :=
  jsSetDedupAux [] l

/-! JavaScript Map, as an association list in insertion order with unique
keys.  mapInsert on a present key updates the value in place (Map.set keeps
the original position); on an absent key it appends.  mapDelete removes the
entry of the key (written with filter, which agrees with Map.delete on the
unique-key states reachable through the API). -/

/-- Lookup in a JavaScript-Map association list (Map.get). -/
def mapLookup {β : Type} : List (String × β) → String → Option β
  | [], _ => none
  | p :: ps, k => if p.1 = k then some p.2 else mapLookup ps k

/-- Insert/overwrite in a JavaScript-Map association list (Map.set). -/
def mapInsert {β : Type} (l : List (String × β)) (k : String) (v : β) :
    List (String × β) :=
  if l.any (fun p => p.1 = k) then
    l.map fun p => if p.1 = k then (k, v) else p
  else l ++ [(k, v)]

/-- Delete from a JavaScript-Map association list (Map.delete). -/
def mapDelete {β : Type} (l : List (String × β)) (k : String) :
    List (String × β) :=
  l.filter fun p => p.1 ≠ k

namespace CacheManager

/-- Cache entry, from CacheManager.ts: stored data, creation timestamp and
expiry timestamp (epoch milliseconds). -/
structure CacheEntry (α : Type) where
  data : α
  timestamp : Nat
  expiry : Nat
deriving DecidableEq, Repr

/-- State of a CacheManager instance: the Map of entries plus the
construction parameters read by set and the sweep. -/
structure CacheState (α : Type) where
  entries : List (String × CacheEntry α)
  defaultExpiryMinutes : Nat
  maxSize : Nat
deriving DecidableEq, Repr

/-- The wrapper object CacheManager.get builds around a live entry
(success / data / timestamp / source fields of its ScrapingResult). -/
structure CacheHit (α : Type) where
  success : Bool
  data : α
  timestamp : Nat
  source : String
deriving DecidableEq, Repr

/-- Key of the entry with the oldest creation timestamp: the source sorts
the entries by timestamp ascending (a stable sort, so insertion order breaks
ties) and takes the first key.  Returns none only on an empty store, where
the source expression would throw a TypeError; eviction only reaches that
case when maxSize = 0. -/
def oldestKey {α : Type} (l : List (String × CacheEntry α)) : Option String :=
  match l with
  | [] => none
  | e :: es =>
      some ((es.foldl (fun best x =>
        if x.2.timestamp < best.2.timestamp then x else best) e).1)

/-- Eviction step of CacheManager.set: when size has reached maxSize, delete
the entry returned by oldestKey. -/
def evictIfFull {α : Type} (s : CacheState α) : CacheState α :=
  if s.maxSize ≤ s.entries.length then
    match oldestKey s.entries with
    | some k => { s with entries := mapDelete s.entries k }
    | none => s
  else s

/-- CacheManager.set key data expiryMinutes (at time now): evict if at
capacity, then insert the entry with expiry now + expiryMinutes minutes. -/
def set {α : Type} (s : CacheState α) (key : String) (data : α)
    (now expiryMinutes : Nat) : CacheState α :=
  let s₁ := evictIfFull s
  { s₁ with entries :=
      mapInsert s₁.entries key (CacheEntry.mk data now (now + expiryMinutes * 60 * 1000)) }

/-- CacheManager.get key (at time now): miss on an absent key; on an entry
whose expiry is strictly before now, delete it and miss; otherwise return
the success wrapper with source "cache".  Returns the result and the
possibly updated state. -/
def get {α : Type} (s : CacheState α) (key : String) (now : Nat) :
    Option (CacheHit α) × CacheState α :=
  match mapLookup s.entries key with
  | none => (none, s)
  | some e =>
      if e.expiry < now then
        (none, { s with entries := mapDelete s.entries key })
      else
        (some ⟨true, e.data, e.timestamp, "cache"⟩, s)

/-- One set operation: key, value, call time, expiry minutes. -/
structure SetOp (α : Type) where
  key : String
  data : α
  now : Nat
  expiryMinutes : Nat
deriving DecidableEq, Repr

/-- A sequence of set operations applied in order. -/
def setMany {α : Type} (s : CacheState α) (ops : List (SetOp α)) : CacheState α :=
  ops.foldl (fun st op => set st op.key op.data op.now op.expiryMinutes) s

end CacheManager

/-- Assignment status vocabulary, from backendInterfaces.ts. -/
inductive AssignmentStatus where
  | not_submitted
  | submitted
  | graded
deriving DecidableEq, Repr

/-- Opaque JavaScript Date built from scraped text via new Date(text); no
claim inspects the parsed value, so only the source text is kept. -/
structure JSDate where
  raw : String
deriving DecidableEq, Repr

/-- CourseInfo of backendInterfaces.ts (BaseInfo fields id, title, content,
timestamp, campus plus the course fields).  description is optional in the
interface; credits comes from parseInt(text) || 0 and is an integer. -/
structure CourseInfo where
  id : String
  title : String
  content : String
  name : String
  professor : String
  semester : String
  url : String
  description : Option String
  credits : Int
  department : String
  schedule : List String
  platform : String
  timestamp : Nat
  campus : String
deriving DecidableEq, Repr

/-- AttachmentInfo of backendInterfaces.ts. -/
structure AttachmentInfo where
  id : String
  name : String
  url : String
  type : String
  size : Option Nat
deriving DecidableEq, Repr

/-- NoticeInfo of backendInterfaces.ts. -/
structure NoticeInfo where
  id : String
  title : String
  content : String
  author : String
  date : JSDate
  important : Bool
  views : Int
  attachments : List AttachmentInfo
  platform : String
  timestamp : Nat
  campus : String
deriving DecidableEq, Repr

/-- AssignmentInfo of backendInterfaces.ts. -/
structure AssignmentInfo where
  id : String
  title : String
  content : String
  description : String
  dueDate : JSDate
  startDate : JSDate
  status : AssignmentStatus
  maxScore : Int
  attachments : List AttachmentInfo
  platform : String
  timestamp : Nat
  campus : String
deriving DecidableEq, Repr

/-- JavaScript falsiness of a possibly absent string: undefined and the
empty string are falsy. -/
def jsFalsyStr : Option String → Bool
  | none => true
  | some s => s = ""

namespace UniversalScraper

/-- UniversalScraper.getMoreDetailedDescription: an absent or empty
description loses to the other one; between two non-empty descriptions the
longer (ties: the first) wins. -/
def getMoreDetailedDescription (desc1 desc2 : Option String) : Option String :=
  if jsFalsyStr desc1 then desc2
  else if jsFalsyStr desc2 then desc1
  else if (desc2.getD "").length ≤ (desc1.getD "").length then desc1 else desc2

/-- UniversalScraper.mergeCoursesInfo: the object spread of course2 over
course1 (every field takes the course2 value), then schedule is overridden
with the Set-union of both schedules and description with
getMoreDetailedDescription. -/
def mergeCoursesInfo (course1 course2 : CourseInfo) : CourseInfo :=
  { course2 with
      schedule := jsSetDedup (course1.schedule ++ course2.schedule)
      description := getMoreDetailedDescription course1.description course2.description }

/-- One forEach step of UniversalScraper.mergeCourses over the course Map:
a new id is inserted as is, an existing id is merged with mergeCoursesInfo
(existing entry first). -/
def mergeStep (m : List (String × CourseInfo)) (course : CourseInfo) :
    List (String × CourseInfo) :=
  match mapLookup m course.id with
  | none => mapInsert m course.id course
  | some existing => mapInsert m course.id (mergeCoursesInfo existing course)

/-- UniversalScraper.mergeCourses: fold all of courses1 then courses2
through the Map and return the values in insertion order. -/
def mergeCourses (courses1 courses2 : List CourseInfo) : List CourseInfo :=
  (((courses1 ++ courses2).foldl mergeStep []).map Prod.snd)

end UniversalScraper

namespace AdaptiveParser

/-- Digits of a decimal numeral, most significant first, as a Nat. -/
def digitsToNat (cs : List Char) : Nat :=
  cs.foldl (fun a c => 10 * a + (c.toNat - 48)) 0

/-- Character class of the regex \s (ASCII part). -/
def isJsSpace (c : Char) : Bool :=
  c = ' ' ∨ c = '\t' ∨ c = '\n' ∨ c = '\r' ∨ c.toNat = 11 ∨ c.toNat = 12

/-- Character class [\d.] of the size regex. -/
def isDigitOrDot (c : Char) : Bool :=
  c.isDigit ∨ c = '.'

/-- JavaScript parseFloat restricted to strings over [\d.] (the only inputs
the size regex lets through): integer digits, an optional dot and fraction
digits; parsing stops at a second dot; none models NaN (no digit before the
stop point, as in "." or "").  The non-negative decimal value is returned in
exact fixed-point form (mantissa, scale) representing mantissa / 10 ^ scale,
so that the later arithmetic stays in Nat and evaluates inside the
kernel. -/
def jsParseFloat (s : String) : Option (Nat × Nat) :=
  let cs := s.toList
  let ip := cs.takeWhile Char.isDigit
  match cs.drop ip.length with
  | '.' :: r2 =>
      let fp := r2.takeWhile Char.isDigit
      if ip.isEmpty ∧ fp.isEmpty then none
      else some (digitsToNat ip * 10 ^ fp.length + digitsToNat fp, fp.length)
  | _ => if ip.isEmpty then none else some (digitsToNat ip, 0)

/-- JavaScript Math.round of the non-negative value m / 10 ^ e: round half
toward positive infinity, that is floor of m / 10 ^ e + 1 / 2, computed as a
Nat floor division so that it evaluates inside the kernel. -/
def jsMathRound (m e : Nat) : Nat :=
  (2 * m + 10 ^ e) / (2 * 10 ^ e)

/-- AdaptiveParser.parseFileSize: match ^([\d.]+)\s*(KB|MB|GB|B)?$ case
insensitively; on no match return 0; otherwise multiply the parseFloat of
the numeric part by the unit from the table B = 1, KB = 1024, MB = 1024^2,
GB = 1024^3 and round.  none models the NaN a degenerate numeric part such
as "." produces. -/
def parseFileSize (sizeString : String) : Option Nat :=
  let cs := sizeString.toList
  let num := cs.takeWhile isDigitOrDot
  let rest := (cs.drop num.length).dropWhile isJsSpace
  let unit := jsToUpper (String.mk rest)
  if num.isEmpty then some 0
  else if unit = "" ∨ unit = "B" ∨ unit = "KB" ∨ unit = "MB" ∨ unit = "GB" then
    let mult : Nat :=
      if unit = "KB" then 1024
      else if unit = "MB" then 1024 * 1024
      else if unit = "GB" then 1024 * 1024 * 1024
      else 1
    match jsParseFloat (String.mk num) with
    | none => none
    | some me => some (jsMathRound (me.1 * mult) me.2)
  else some 0

/-- Splitting on the dot character, modelling String.prototype.split with
separator "." (adjacent dots give empty segments, the empty input gives one
empty segment). -/
def splitDot : List Char → List (List Char)
  | [] => [[]]
  | c :: rest =>
      match splitDot rest with
      | [] => [[]]
      | g :: gs => if c = '.' then [] :: g :: gs else (c :: g) :: gs

/-- AdaptiveParser.guessFileType: mime type from the lowercased final
extension of the file name, defaulting to application/octet-stream. -/
def guessFileType (filename : String) : String :=
  let ext := jsToLower ((splitDot filename.toList).getLastD [] |> String.mk)
  if ext = "pdf" then "application/pdf"
  else if ext = "doc" then "application/msword"
  else if ext = "docx" then
    "application/vnd.openxmlformats-officedocument.wordprocessingml.document"
  else if ext = "xls" then "application/vnd.ms-excel"
  else if ext = "xlsx" then
    "application/vnd.openxmlformats-officedocument.spreadsheetml.sheet"
  else if ext = "ppt" then "application/vnd.ms-powerpoint"
  else if ext = "pptx" then
    "application/vnd.openxmlformats-officedocument.presentationml.presentation"
  else if ext = "jpg" then "image/jpeg"
  else if ext = "jpeg" then "image/jpeg"
  else if ext = "png" then "image/png"
  else if ext = "gif" then "image/gif"
  else if ext = "zip" then "application/zip"
  else if ext = "txt" then "text/plain"
  else "application/octet-stream"

/-- AdaptiveParser.parseAssignmentStatus: case-insensitive substring match
against the Korean/English synonyms, defaulting to not_submitted. -/
def parseAssignmentStatus (status : String) : AssignmentStatus :=
  let s := jsToLower status
  if jsIncludes s "제출완료" ∨ jsIncludes s "submitted" then .submitted
  else if jsIncludes s "채점완료" ∨ jsIncludes s "graded" then .graded
  else .not_submitted

/-- JavaScript parseInt(text) || 0: leading ASCII whitespace, an optional
sign, then leading digits; no digits (NaN) or a zero value both fall back
to 0 through the || 0. -/
def jsParseIntOr0 (s : String) : Int :=
  let cs := s.toList.dropWhile isJsSpace
  match cs with
  | '-' :: r => -(digitsToNat (r.takeWhile Char.isDigit) : Int)
  | '+' :: r => (digitsToNat (r.takeWhile Char.isDigit) : Int)
  | r => (digitsToNat (r.takeWhile Char.isDigit) : Int)

/-- One .course-item block, pre-queried: the strings each sub-selector of
parseCourseList reads (attr results are optional, text().trim() results are
plain strings, absent matches read as the empty string). -/
structure CourseItemEl where
  dataCourseId : Option String
  courseTitle : String
  courseDescription : String
  courseName : String
  professorName : String
  semesterText : String
  courseLink : Option String
  creditsText : String
  departmentText : String
  scheduleTexts : List String
deriving DecidableEq, Repr

/-- One .attachment-item block of the attachments container. -/
structure AttachmentEl where
  dataId : Option String
  nameText : String
  link : Option String
  typeText : String
  sizeText : String
deriving DecidableEq, Repr

/-- One .notice-item block. -/
structure NoticeItemEl where
  dataId : Option String
  noticeTitle : String
  noticeContent : String
  noticeAuthor : String
  noticeDateText : String
  importantClass : Bool
  viewsText : String
  attachmentEls : List AttachmentEl
deriving DecidableEq, Repr

/-- One .assignment-item block. -/
structure AssignmentItemEl where
  dataId : Option String
  assignmentTitle : String
  assignmentContent : String
  assignmentDescription : String
  dueDateText : String
  startDateText : String
  statusText : String
  maxScoreText : String
  attachmentEls : List AttachmentEl
deriving DecidableEq, Repr

/-- A document after the cheerio class-selector queries: the lists of blocks
matching .course-item, .notice-item and .assignment-item.  The source has no
separate notion of a container element; an absent container simply yields an
empty selector result. -/
structure Doc where
  courseItems : List CourseItemEl
  noticeItems : List NoticeItemEl
  assignmentItems : List AssignmentItemEl
deriving DecidableEq, Repr

/-- Field mapping of one course block (the callback of parseCourseList). -/
def parseCourseItem (platform campus : String) (now idx : Nat)
    (el : CourseItemEl) : CourseInfo :=
  { id := jsOrStr el.dataCourseId ("course_" ++ toString now ++ "_" ++ toString idx)
    title := el.courseTitle
    content := el.courseDescription
    name := el.courseName
    professor := el.professorName
    semester := el.semesterText
    url := el.courseLink.getD ""
    description := some el.courseDescription
    credits := jsParseIntOr0 el.creditsText
    department := el.departmentText
    schedule := el.scheduleTexts
    platform := platform
    timestamp := now
    campus := campus }

/-- Field mapping of one attachment block (the callback of
parseAttachments). -/
def parseAttachmentItem (now idx : Nat) (el : AttachmentEl) : AttachmentInfo :=
  { id := jsOrStr el.dataId ("attachment_" ++ toString now ++ "_" ++ toString idx)
    name := el.nameText
    url := el.link.getD ""
    type := if el.typeText = "" then guessFileType el.nameText else el.typeText
    size := parseFileSize el.sizeText }

/-- AdaptiveParser.parseAttachments over a container. -/
def parseAttachments (now : Nat) (els : List AttachmentEl) : List AttachmentInfo :=
  els.enum.map fun p => parseAttachmentItem now p.1 p.2

/-- Field mapping of one notice block (the callback of parseNotices). -/
def parseNoticeItem (platform campus : String) (now idx : Nat)
    (el : NoticeItemEl) : NoticeInfo :=
  { id := jsOrStr el.dataId ("notice_" ++ toString now ++ "_" ++ toString idx)
    title := el.noticeTitle
    content := el.noticeContent
    author := el.noticeAuthor
    date := JSDate.mk el.noticeDateText
    important := el.importantClass
    views := jsParseIntOr0 el.viewsText
    attachments := parseAttachments now el.attachmentEls
    platform := platform
    timestamp := now
    campus := campus }

/-- Field mapping of one assignment block (the callback of
parseAssignments). -/
def parseAssignmentItem (platform campus : String) (now idx : Nat)
    (el : AssignmentItemEl) : AssignmentInfo :=
  { id := jsOrStr el.dataId ("assignment_" ++ toString now ++ "_" ++ toString idx)
    title := el.assignmentTitle
    content := el.assignmentContent
    description := el.assignmentDescription
    dueDate := JSDate.mk el.dueDateText
    startDate := JSDate.mk el.startDateText
    status := parseAssignmentStatus el.statusText
    maxScore := jsParseIntOr0 el.maxScoreText
    attachments := parseAttachments now el.attachmentEls
    platform := platform
    timestamp := now
    campus := campus }

/-- AdaptiveParser.parseCourseList: map the course-block callback over every
.course-item match.  The body of the try block is total (the cheerio
accessors, parseInt and new Date never throw), so the catch branch that
would produce ParseError is unreachable; the Except type is kept to mirror
the thrown-error channel of the source. -/
def parseCourseList (doc : Doc) (platform campus : String) (now : Nat) :
    Except ScrapeErr (List CourseInfo) :=
  .ok (doc.courseItems.enum.map fun p => parseCourseItem platform campus now p.1 p.2)

/-- AdaptiveParser.parseNotices: map over every .notice-item match; same
total-body remark as parseCourseList. -/
def parseNotices (doc : Doc) (platform campus : String) (now : Nat) :
    Except ScrapeErr (List NoticeInfo) :=
  .ok (doc.noticeItems.enum.map fun p => parseNoticeItem platform campus now p.1 p.2)

/-- AdaptiveParser.parseAssignments: map over every .assignment-item match;
same total-body remark as parseCourseList. -/
def parseAssignments (doc : Doc) (platform campus : String) (now : Nat) :
    Except ScrapeErr (List AssignmentInfo) :=
  .ok (doc.assignmentItems.enum.map fun p => parseAssignmentItem platform campus now p.1 p.2)

end AdaptiveParser

/-- Result object a platform data operation resolves with, from
backendInterfaces.ts ScrapingResult: the success flag, the payload (optional
because callers test its truthiness against undefined), the timestamp and
the source tag. -/
structure PlatformResult (α : Type) where
  success : Bool
  data : Option α
  timestamp : Nat
  source : String
deriving DecidableEq, Repr

namespace LearnUs

/-- Axios branch of LearnUs.handleError: an axios failure becomes a
NetworkError with kind request carrying the Retry-After header and the HTTP
status. -/
def handleAxiosError (message : String) (e : AxiosErr) : ScrapeErr :=
  .networkError (message ++ ": " ++ e.message) "request" e.retryAfter e.statusCode

/-- LearnUs.authenticate (identical in LearnUs.ts and the platforms
variant): GET the login page, read the hidden _csrf field, POST the login
form, then assign the authenticated flag from whether the response body
contains the logout marker.  The two network calls are oracles; csrfOf
models the cheerio query for the hidden field.  If either call fails the
catch block throws AuthenticationError and the flag, assigned only after a
successful POST, keeps its previous value.  Returns the call result and the
new flag. -/
def authenticate (isAuthenticated : Bool)
    (loginPageGet : Except AxiosErr String)
    (csrfOf : String → Option String)
    (loginPost : Option String → Except AxiosErr String) :
    Except ScrapeErr Bool × Bool :=
  match loginPageGet with
  | .error e =>
      (.error (.authenticationError ("러너스 로그인 실패: " ++ e.message)), isAuthenticated)
  | .ok pageBody =>
      match loginPost (csrfOf pageBody) with
      | .error e =>
          (.error (.authenticationError ("러너스 로그인 실패: " ++ e.message)), isAuthenticated)
      | .ok respBody =>
          let loggedIn := jsIncludes respBody "로그아웃"
          (.ok loggedIn, loggedIn)

/-- LearnUs.getCourses of the platforms variant: authentication gate first,
then GET /my/ and parse the course list.  The fetch oracle maps a URL to a
pre-queried document; the second component lists the URLs requested.  The
variant passes no campus to parseCourseList, modelled as the empty
string. -/
def getCourses (isAuthenticated : Bool)
    (fetch : String → Except AxiosErr AdaptiveParser.Doc) (now : Nat) :
    Except ScrapeErr (PlatformResult (List CourseInfo)) × List String :=
  if isAuthenticated = false then
    (.error (.authenticationError "인증이 필요합니다"), [])
  else
    match fetch "/my/" with
    | .error e => (.error (handleAxiosError "강좌 목록 가져오기 실패" e), ["/my/"])
    | .ok doc =>
        match AdaptiveParser.parseCourseList doc "learnus" "" now with
        | .error pe =>
            (.error (.parseError ("강좌 목록 가져오기 실패: " ++ pe.message)), ["/my/"])
        | .ok courses =>
            (.ok ⟨true, some courses, now, "LearnUs"⟩, ["/my/"])

/-- LearnUs.getAssignments of the platforms variant: authentication gate,
then GET /mod/assign/index.php?id=courseId and parse the assignments. -/
def getAssignments (isAuthenticated : Bool) (courseId : String)
    (fetch : String → Except AxiosErr AdaptiveParser.Doc) (now : Nat) :
    Except ScrapeErr (PlatformResult (List AssignmentInfo)) × List String :=
  if isAuthenticated = false then
    (.error (.authenticationError "인증이 필요합니다"), [])
  else
    let url := "/mod/assign/index.php?id=" ++ courseId
    match fetch url with
    | .error e => (.error (handleAxiosError "과제 목록 가져오기 실패" e), [url])
    | .ok doc =>
        match AdaptiveParser.parseAssignments doc "learnus" "" now with
        | .error pe =>
            (.error (.parseError ("과제 목록 가져오기 실패: " ++ pe.message)), [url])
        | .ok assignments =>
            (.ok ⟨true, some assignments, now, "LearnUs"⟩, [url])

/-- LearnUs.scrapeCourseNotices of the platforms variant: authentication
gate, then GET /course/notices.php?id=courseId and parse the notices. -/
def scrapeCourseNotices (isAuthenticated : Bool) (courseId : String)
    (fetch : String → Except AxiosErr AdaptiveParser.Doc) (now : Nat) :
    Except ScrapeErr (PlatformResult (List NoticeInfo)) × List String :=
  if isAuthenticated = false then
    (.error (.authenticationError "인증이 필요합니다"), [])
  else
    let url := "/course/notices.php?id=" ++ courseId
    match fetch url with
    | .error e => (.error (handleAxiosError "공지사항 가져오기 실패" e), [url])
    | .ok doc =>
        match AdaptiveParser.parseNotices doc "learnus" "" now with
        | .error pe =>
            (.error (.parseError ("공지사항 가져오기 실패: " ++ pe.message)), [url])
        | .ok notices =>
            (.ok ⟨true, some notices, now, "LearnUs"⟩, [url])

/-- Payload stored inside the ScrapedData the getScrapeData variant builds
(its content field holds the typed records of the dispatched category). -/
inductive LearnUsContent where
  | courses (l : List CourseInfo)
  | notices (l : List NoticeInfo)
  | assignments (l : List AssignmentInfo)
deriving DecidableEq, Repr

/-- The ScrapedData object LearnUs.convertToScrapedData builds (confidence
1.0 is a constant and is dropped). -/
structure LScrapedData where
  id : String
  type : String
  content : LearnUsContent
  timestamp : Nat
  metaSource : String
  metaCategory : String
deriving DecidableEq, Repr

/-- LearnUs.convertToScrapedData. -/
def convertToScrapedData (data : LearnUsContent) (category : String) (now : Nat) :
    LScrapedData :=
  ⟨"learnus_" ++ toString now, category, data, now, "learnus", category⟩

/-- The ScrapingResult object LearnUs.getScrapeData resolves with; its
metadata literal campus / updateFrequency 5m / reliability 0.95 is
constant except for campus, which is kept. -/
structure LearnUsScrapeResult where
  success : Bool
  data : LScrapedData
  timestamp : Nat
  source : String
  metaCampus : String
deriving DecidableEq, Repr

/-- LearnUs.getScrapeData of LearnUs.ts: the authenticated flag is checked
before anything else and an unauthenticated call throws AuthenticationError
with no cache access and no network request.  Otherwise: consult the cache
(this file pairs with the components/CacheManager.ts variant whose set and
get store and return raw values with no expiry), dispatch on the category
(course / notice / assignment; anything else throws a plain Error that
handleError wraps into a ParseError), convert, write the cache and resolve.
Returns the result, the updated cache and the list of URLs requested. -/
def getScrapeData (authenticated : Bool)
    (cache : List (String × LScrapedData)) (category campus : String)
    (fetch : String → Except AxiosErr AdaptiveParser.Doc) (now : Nat) :
    Except ScrapeErr LearnUsScrapeResult × List (String × LScrapedData) × List String :=
  if authenticated = false then
    (.error (.authenticationError "인증이 필요합니다"), cache, [])
  else
    let campusOrDefault := if campus = "" then "신촌" else campus
    let cacheKey := "learnus_" ++ category ++ "_" ++ campusOrDefault
    match mapLookup cache cacheKey with
    | some cachedData =>
        (.ok ⟨true, cachedData, now, "learnus", campus⟩, cache, [])
    | none =>
        let dispatched : Except ScrapeErr (LearnUsContent × List String) :=
          if category = "course" then
            match fetch "/my/" with
            | .error e => .error (handleAxiosError ("Failed to scrape " ++ category) e)
            | .ok doc =>
                match AdaptiveParser.parseCourseList doc "learnus" campusOrDefault now with
                | .error pe =>
                    .error (.parseError ("Failed to scrape " ++ category ++ ": " ++ pe.message))
                | .ok courses => .ok (.courses courses, ["/my/"])
          else if category = "notice" then
            match fetch "/notices" with
            | .error e => .error (handleAxiosError ("Failed to scrape " ++ category) e)
            | .ok doc =>
                match AdaptiveParser.parseNotices doc "learnus" campusOrDefault now with
                | .error pe =>
                    .error (.parseError ("Failed to scrape " ++ category ++ ": " ++ pe.message))
                | .ok notices => .ok (.notices notices, ["/notices"])
          else if category = "assignment" then
            match fetch "/assignments" with
            | .error e => .error (handleAxiosError ("Failed to scrape " ++ category) e)
            | .ok doc =>
                match AdaptiveParser.parseAssignments doc "learnus" campusOrDefault now with
                | .error pe =>
                    .error (.parseError ("Failed to scrape " ++ category ++ ": " ++ pe.message))
                | .ok assignments => .ok (.assignments assignments, ["/assignments"])
          else
            .error (.parseError
              ("Failed to scrape " ++ category ++ ": Unsupported category: " ++ category))
        match dispatched with
        | .error e => (.error e, cache, if category = "course" then ["/my/"]
            else if category = "notice" then ["/notices"]
            else if category = "assignment" then ["/assignments"]
            else [])
        | .ok dr =>
            let scrapedData := convertToScrapedData dr.1 category now
            (.ok ⟨true, scrapedData, now, "learnus", campus⟩,
              mapInsert cache cacheKey scrapedData, dr.2)

end LearnUs

/-- Options of a UniversalScraper call (ScrapingOptions of the source;
undefined option objects read as both flags false). -/
structure ScrapingOptions where
  useCache : Bool
  forceRefresh : Bool
deriving DecidableEq, Repr

namespace UniversalScraper

/-- Metadata literal getAllCourses attaches to a fresh result. -/
structure AllCoursesMeta where
  learnUsCount : Nat
  portalCount : Nat
  totalCount : Nat
  platformsLearnus : Bool
  platformsPortal : Bool
deriving DecidableEq, Repr

/-- The fresh ScrapingResult getAllCourses builds. -/
structure AllCoursesResult where
  success : Bool
  data : List CourseInfo
  timestamp : Nat
  source : String
  metadata : AllCoursesMeta
deriving DecidableEq, Repr

/-- Runtime shape of a getAllCourses resolution.  The TypeScript signature
claims ScrapingResult of CourseInfo arrays for both paths, but on a cache
hit the value actually returned is the CacheManager.get wrapper around the
stored result, so the model keeps the two shapes apart. -/
inductive AllCoursesReturn where
  | fromCache (hit : CacheManager.CacheHit AllCoursesResult)
  | fresh (r : AllCoursesResult)
deriving DecidableEq, Repr

/-- Catch block of getAllCourses: AuthenticationError and NetworkError are
rethrown unchanged; every other error (a ParseError from below included) is
rewrapped as a new ParseError with the processing-failure prefix. -/
def allCoursesCatch (e : ScrapeErr) : ScrapeErr :=
  match e with
  | .authenticationError m => .authenticationError m
  | .networkError m k ra sc => .networkError m k ra sc
  | e => .parseError ("강좌 정보 처리 실패: " ++ e.message)

/-- UniversalScraper.getAllCourses.  The two platform getCourses calls are
oracles holding either the rejection error or the resolved PlatformResult.
Promise.all rejects as soon as any input rejects; the model surfaces the
left-most rejection (value-level simplification of the nondeterministic
settle order).  When both resolve: if neither has success, a plain Error is
thrown (and rewrapped by the catch into a ParseError); otherwise the course
lists of the successful platforms (undefined data reads as the empty list)
are merged, the result is assembled with per-platform metadata and, when
useCache is set, written through the cache with the configured duration. -/
def getAllCourses
    (learnUsOutcome portalOutcome : Except ScrapeErr (PlatformResult (List CourseInfo)))
    (opts : ScrapingOptions) (cache : CacheManager.CacheState AllCoursesResult)
    (now duration : Nat) :
    Except ScrapeErr AllCoursesReturn × CacheManager.CacheState AllCoursesResult :=
  let core : CacheManager.CacheState AllCoursesResult →
      Except ScrapeErr AllCoursesReturn × CacheManager.CacheState AllCoursesResult :=
    fun c =>
      match learnUsOutcome, portalOutcome with
      | .error e, _ => (.error (allCoursesCatch e), c)
      | .ok _, .error e => (.error (allCoursesCatch e), c)
      | .ok learnUsResult, .ok portalResult =>
          if learnUsResult.success = false ∧ portalResult.success = false then
            (.error (allCoursesCatch
              (.genericError "모든 플랫폼에서 강좌 정보를 가져오는데 실패했습니다")), c)
          else
            let learnUsCourses :=
              if learnUsResult.success ∧ learnUsResult.data.isSome then
                learnUsResult.data.getD [] else []
            let portalCourses :=
              if portalResult.success ∧ portalResult.data.isSome then
                portalResult.data.getD [] else []
            let allCourses := mergeCourses learnUsCourses portalCourses
            let result : AllCoursesResult :=
              ⟨true, allCourses, now, "UniversalScraper",
                ⟨learnUsCourses.length, portalCourses.length, allCourses.length,
                  learnUsResult.success, portalResult.success⟩⟩
            let c₂ := if opts.useCache then
                CacheManager.set c "all_courses" result now duration else c
            (.ok (.fresh result), c₂)
  if opts.useCache ∧ opts.forceRefresh = false then
    match CacheManager.get cache "all_courses" now with
    | (some hit, c₁) => (.ok (.fromCache hit), c₁)
    | (none, c₁) => core c₁
  else core cache

end UniversalScraper

namespace BackendWebScrapingService

/-- One element of an array payload as convertToScrapedDataArray reads it:
the id plus the possibly absent type, platform and category properties. -/
structure RawItem where
  id : String
  type : Option String
  platform : Option String
  category : Option String
deriving DecidableEq, Repr

/-- Runtime shape of the data field of a platform getScrapeData response as
far as the conversion inspects it: either not an array (the shape the
LearnUs variant actually resolves with) or an array of items. -/
inductive PortalData where
  | nonArray
  | array (items : List RawItem)
deriving DecidableEq, Repr

/-- ScrapedData as assembled by the conversion helpers (the content field,
which holds the original heterogeneous object, is opaque to every claim and
is dropped; confidence is the constant 1.0). -/
structure ScrapedData where
  id : String
  type : String
  timestamp : Nat
  metaSource : String
  metaCategory : String
deriving DecidableEq, Repr

/-- BackendWebScrapingService.convertToScrapedDataArray: a non-array data
value converts to the empty array; an array maps each item, defaulting type
to unknown, source to the item platform or unknown, category to the item
category or general. -/
def convertToScrapedDataArray (data : PortalData) (now : Nat) : List ScrapedData :=
  match data with
  | .nonArray => []
  | .array items =>
      items.map fun item =>
        ⟨item.id, jsOrStr item.type "unknown", now,
          jsOrStr item.platform "unknown", jsOrStr item.category "general"⟩

/-- Library status entry as the conversion reads it. -/
structure LibraryStatus where
  id : String
  roomType : String
  capacity : Int
  available : Int
  status : String
deriving DecidableEq, Repr

/-- Library hours entry (only its position is used by the conversion). -/
structure LibraryHours where
  facility : String
deriving DecidableEq, Repr

/-- Library notice entry as the conversion reads it. -/
structure LibNotice where
  id : String
  timestamp : Nat
deriving DecidableEq, Repr

/-- LibraryResource of backendInterfaces.ts. -/
structure LibraryResource where
  status : List LibraryStatus
  hours : List LibraryHours
  notices : List LibNotice
deriving DecidableEq, Repr

/-- BackendWebScrapingService.convertLibraryDataToScrapedData: status
entries, then hours entries with synthetic hours_i ids, then notices with
their own timestamps. -/
def convertLibraryDataToScrapedData (libraryData : LibraryResource) (now : Nat) :
    List ScrapedData :=
  (libraryData.status.map fun st =>
    ⟨st.id, "library_status", now, "library", "facility"⟩)
  ++ (libraryData.hours.enum.map fun p =>
    ⟨"hours_" ++ toString p.1, "library_hours", now, "library", "operation"⟩)
  ++ (libraryData.notices.map fun n =>
    ⟨n.id, "library_notice", n.timestamp, "library", "notice"⟩)

/-- Scraping config literal scrapeByCategory passes down. -/
structure ScrapingConfigM where
  baseUrl : String
  campus : String
  limit : Nat
deriving DecidableEq, Repr

/-- The success ScrapingResult scrapeByCategory resolves with (metadata
campus plus the constants updateFrequency 5m and reliability 0.95). -/
structure ServiceResult where
  success : Bool
  data : List ScrapedData
  timestamp : Nat
  source : String
  metaCampus : String
deriving DecidableEq, Repr

/-- BackendWebScrapingService.scrapeByCategory.  The three platform
getScrapeData calls are oracles from (category, config) to either a
rejection or the data field of the response.  The switch sends notices /
academic / scholarship to the portal, course / assignment to LearnUs and
library to the library system; any other category throws a plain
Error (Unknown category).  The catch rethrows NetworkError and ParseError
unchanged and wraps every other failure (AuthenticationError and plain
errors alike) into a plain Error with the Failed-to-scrape prefix. -/
def scrapeByCategory
    (portalO learnusO : String → ScrapingConfigM → Except ScrapeErr PortalData)
    (libraryO : String → ScrapingConfigM → Except ScrapeErr LibraryResource)
    (category : String) (campus : String) (count : Nat) (now : Nat) :
    Except ScrapeErr ServiceResult :=
  let config : ScrapingConfigM := ⟨"", campus, count⟩
  let attempt : Except ScrapeErr (List ScrapedData) :=
    if category = "notices" ∨ category = "academic" ∨ category = "scholarship" then
      match portalO category config with
      | .error e => .error e
      | .ok d => .ok (convertToScrapedDataArray d now)
    else if category = "course" ∨ category = "assignment" then
      match learnusO category config with
      | .error e => .error e
      | .ok d => .ok (convertToScrapedDataArray d now)
    else if category = "library" then
      match libraryO category config with
      | .error e => .error e
      | .ok d => .ok (convertLibraryDataToScrapedData d now)
    else .error (.genericError ("Unknown category: " ++ category))
  match attempt with
  | .ok arr => .ok ⟨true, arr, now, category, campus⟩
  | .error e =>
      match e with
      | .networkError m k ra sc => .error (.networkError m k ra sc)
      | .parseError m => .error (.parseError m)
      | e => .error (.genericError ("Failed to scrape " ++ category ++ ": " ++ e.message))

end BackendWebScrapingService

/-- Modelled from the spec: the fixed category vocabulary of the external
interface section (the values the chat layer is specified to pass to
scrapeByCategory). -/
def specFixedCategoryVocabulary : List String :=
  ["course", "assignment", "notice", "academic", "scholarship", "career",
   "library", "studyroom", "facilities"]

/-- Trimming, modelling String.prototype.trim over the ASCII whitespace
class, written on the character list so that it evaluates inside the
kernel. -/
def jsTrim (s : String) : String :=
  String.mk (((s.toList.dropWhile AdaptiveParser.isJsSpace).reverse.dropWhile
    AdaptiveParser.isJsSpace).reverse)

/-- Splitting on a separator character, modelling String.prototype.split
with a one-character separator (adjacent separators give empty segments,
the empty input gives one empty segment). -/
def splitOnChar (sep : Char) : List Char → List (List Char)
  | [] => [[]]
  | c :: rest =>
      match splitOnChar sep rest with
      | [] => [[]]
      | g :: gs => if c = sep then [] :: g :: gs else (c :: g) :: gs

namespace URLManager

/-- URLManager.joinUrl: strip leading and trailing slashes from every part,
drop the parts left empty, join the rest with single slashes. -/
def joinUrl (parts : List String) : String :=
  joinWithSlash ((parts.map fun s =>
    String.mk (((s.toList.dropWhile (· = '/')).reverse.dropWhile
      (· = '/')).reverse)).filter fun s => s ≠ "")
where
  joinWithSlash : List String → String
    | [] => ""
    | [p] => p
    | p :: ps => p ++ "/" ++ joinWithSlash ps

/-- URLManager.getFullUrl: join the configured base URL with the path. -/
def getFullUrl (baseUrl path : String) : String :=
  joinUrl [baseUrl, path]

end URLManager

namespace ContentExplorer

/-- ContentExplorer.fetchPage over an abstract network oracle from a URL to
either an axios failure or a fetched page (pre-queried in the shape its
consumer reads): an axios failure becomes a NetworkError with the
page-fetch prefix (the non-axios fallback branch of the source cannot fire
for a network call).  Returns the outcome and the list of URLs
requested. -/
def fetchPage {π : Type} (net : String → Except AxiosErr π) (url : String) :
    Except ScrapeErr π × List String :=
  match net url with
  | .error e =>
      (.error (.networkError ("페이지 가져오기 실패: " ++ e.message) "request"
        e.retryAfter e.statusCode), [url])
  | .ok page => (.ok page, [url])

end ContentExplorer

/-- A fetched page as AdaptiveParser.parsePage queries it: the trimmed text
of the first h1, of the first main/.content/#content container, and of the
body. -/
structure AdaptiveParser.PageDoc where
  h1Title : String
  mainContent : String
  bodyText : String
deriving DecidableEq, Repr

/-- The ScrapedData object AdaptiveParser.parsePage builds (the constant
confidence 1.0 is dropped). -/
structure AdaptiveParser.PageScrapedData where
  id : String
  type : String
  title : String
  content : String
  timestamp : Nat
  metaSource : String
  metaCategory : String
deriving DecidableEq, Repr

/-- AdaptiveParser.parsePage: the title falls back to 제목 없음 when the h1
text is empty, the content falls back from the main container to the body
text; the try body is total so the ParseError catch is unreachable, the
Except type mirrors the thrown-error channel. -/
def AdaptiveParser.parsePage (doc : AdaptiveParser.PageDoc) (platform : String)
    (now : Nat) : Except ScrapeErr AdaptiveParser.PageScrapedData :=
  .ok { id := "page_" ++ toString now
        type := "general"
        title := if doc.h1Title = "" then "제목 없음" else doc.h1Title
        content := if doc.mainContent = "" then doc.bodyText else doc.mainContent
        timestamp := now
        metaSource := platform
        metaCategory := "general" }

/-- Library status vocabulary of parseLibraryStatusType; opened models the
source value open, which is a keyword here. -/
inductive AdaptiveParser.LibraryStatusType where
  | opened
  | closed
  | maintenance
deriving DecidableEq, Repr

/-- TimeRange of backendInterfaces.ts; the source field names open and
close are keywords here, kept as openTime and closeTime. -/
structure AdaptiveParser.TimeRange where
  openTime : String
  closeTime : String
deriving DecidableEq, Repr

/-- AdaptiveParser.parseLibraryStatusType: case-insensitive substring match
over the Korean/English synonyms, defaulting to closed. -/
def AdaptiveParser.parseLibraryStatusType (status : String) :
    AdaptiveParser.LibraryStatusType :=
  let s := jsToLower status
  if jsIncludes s "운영중" ∨ jsIncludes s "open" then .opened
  else if jsIncludes s "점검중" ∨ jsIncludes s "maintenance" then .maintenance
  else .closed

/-- AdaptiveParser.parseTimeRange: split on the tilde, trim both parts,
default a missing part to the empty string. -/
def AdaptiveParser.parseTimeRange (timeString : String) :
    AdaptiveParser.TimeRange :=
  let parts := (splitOnChar '~' timeString.toList).map fun cs => jsTrim (String.mk cs)
  { openTime := parts.getD 0 "", closeTime := parts.getD 1 "" }

/-- One .room-status block of the library status page, pre-queried. -/
structure AdaptiveParser.RoomStatusEl where
  dataId : Option String
  roomType : String
  capacityText : String
  availableText : String
  statusText : String
deriving DecidableEq, Repr

/-- One .operation-hours block of the library status page, pre-queried. -/
structure AdaptiveParser.OperationHoursEl where
  facilityName : String
  weekdayText : String
  weekendText : String
  holidayText : String
deriving DecidableEq, Repr

/-- The library status page after the cheerio queries: room-status blocks,
operation-hours blocks, and the re-queried inner HTML of the
.library-notices container (the empty document when the container is
absent, matching html() or the empty string). -/
structure AdaptiveParser.LibDoc where
  roomStatusEls : List AdaptiveParser.RoomStatusEl
  operationHoursEls : List AdaptiveParser.OperationHoursEl
  libraryNotices : AdaptiveParser.Doc
deriving DecidableEq, Repr

/-- LibraryStatus of backendInterfaces.ts. -/
structure AdaptiveParser.LibraryStatus where
  id : String
  type : String
  capacity : Int
  available : Int
  status : AdaptiveParser.LibraryStatusType
deriving DecidableEq, Repr

/-- LibraryHours of backendInterfaces.ts. -/
structure AdaptiveParser.LibraryHours where
  facility : String
  weekday : AdaptiveParser.TimeRange
  weekend : AdaptiveParser.TimeRange
  holiday : AdaptiveParser.TimeRange
deriving DecidableEq, Repr

/-- LibraryResource of backendInterfaces.ts. -/
structure AdaptiveParser.LibraryResource where
  status : List AdaptiveParser.LibraryStatus
  hours : List AdaptiveParser.LibraryHours
  notices : List NoticeInfo
deriving DecidableEq, Repr

/-- AdaptiveParser.parseLibraryStatus: map the room-status and
operation-hours blocks and parse the library-notices sub-document with
parseNotices (platform library, campus 신촌); any error thrown below would
be rewrapped by the catch with the 도서관 상태 파싱 실패 prefix. -/
def AdaptiveParser.parseLibraryStatus (doc : AdaptiveParser.LibDoc) (now : Nat) :
    Except ScrapeErr AdaptiveParser.LibraryResource :=
  match AdaptiveParser.parseNotices doc.libraryNotices "library" "신촌" now with
  | .error e => .error (.parseError ("도서관 상태 파싱 실패: " ++ e.message))
  | .ok notices =>
      .ok { status := doc.roomStatusEls.enum.map fun p =>
              { id := jsOrStr p.2.dataId
                  ("status_" ++ toString now ++ "_" ++ toString p.1)
                type := p.2.roomType
                capacity := AdaptiveParser.jsParseIntOr0 p.2.capacityText
                available := AdaptiveParser.jsParseIntOr0 p.2.availableText
                status := AdaptiveParser.parseLibraryStatusType p.2.statusText }
            hours := doc.operationHoursEls.map fun el =>
              { facility := el.facilityName
                weekday := AdaptiveParser.parseTimeRange el.weekdayText
                weekend := AdaptiveParser.parseTimeRange el.weekendText
                holiday := AdaptiveParser.parseTimeRange el.holidayText }
            notices := notices }

namespace LibrarySystem

/-- RoomSchedule of backendInterfaces.ts; the organizer text is optional
(empty text reads as undefined through the or-undefined idiom). -/
structure RoomSchedule where
  day : String
  startTime : String
  endTime : String
  purpose : String
  organizer : Option String
deriving DecidableEq, Repr

/-- RoomInfo of backendInterfaces.ts as getRooms builds it. -/
structure RoomInfo where
  id : String
  name : String
  capacity : Int
  available : Bool
  location : String
  facilities : List String
  schedule : List RoomSchedule
deriving DecidableEq, Repr

/-- One .schedule-item block of a room, pre-queried. -/
structure ScheduleItemEl where
  dayText : String
  startTimeText : String
  endTimeText : String
  purposeText : String
  organizerText : String
deriving DecidableEq, Repr

/-- One .room-item block of the rooms page, pre-queried. -/
structure RoomItemEl where
  dataRoomId : Option String
  roomName : String
  capacityText : String
  availableClass : Bool
  locationText : String
  facilitiesTexts : List String
  scheduleEls : List ScheduleItemEl
deriving DecidableEq, Repr

/-- The rooms page after the cheerio query. -/
structure RoomsDoc where
  roomItems : List RoomItemEl
deriving DecidableEq, Repr

/-- LibrarySystem.parseRoomSchedule block callback. -/
def parseScheduleItem (el : ScheduleItemEl) : RoomSchedule :=
  { day := el.dayText
    startTime := el.startTimeText
    endTime := el.endTimeText
    purpose := el.purposeText
    organizer := if el.organizerText = "" then none else some el.organizerText }

/-- The each-loop of LibrarySystem.getRooms: rooms are accumulated in
order, and a block whose data-room-id attribute is absent or empty throws
ParseError, aborting the whole loop. -/
def parseRooms : List RoomItemEl → Except ScrapeErr (List RoomInfo)
  | [] => .ok []
  | el :: rest =>
      if jsFalsyStr el.dataRoomId then .error (.parseError "방 ID를 찾을 수 없습니다")
      else
        match parseRooms rest with
        | .error e => .error e
        | .ok rooms =>
            .ok ({ id := el.dataRoomId.getD ""
                   name := el.roomName
                   capacity := AdaptiveParser.jsParseIntOr0 el.capacityText
                   available := el.availableClass
                   location := el.locationText
                   facilities := el.facilitiesTexts
                   schedule := el.scheduleEls.map parseScheduleItem } :: rooms)

/-- LibrarySystem.getRooms: authentication gate first (an unauthenticated
call throws AuthenticationError before any request), then GET /rooms, run
the room loop, and wrap a thrown ParseError with the catch prefix. -/
def getRooms (isAuthenticated : Bool)
    (fetch : String → Except AxiosErr RoomsDoc) (now : Nat) :
    Except ScrapeErr (PlatformResult (List RoomInfo)) × List String :=
  if isAuthenticated = false then
    (.error (.authenticationError "인증이 필요합니다"), [])
  else
    match fetch "/rooms" with
    | .error e =>
        (.error (.networkError ("열람실 정보 가져오기 실패: " ++ e.message) "request"
          e.retryAfter e.statusCode), ["/rooms"])
    | .ok doc =>
        match parseRooms doc.roomItems with
        | .error pe =>
            (.error (.parseError ("열람실 정보 파싱 실패: " ++ pe.message)), ["/rooms"])
        | .ok rooms =>
            (.ok ⟨true, some rooms, now, "LibrarySystem"⟩, ["/rooms"])

/-- The ScrapingResult LibrarySystem.getScrapeData resolves with; source is
this.constructor.name, that is LibrarySystem. -/
structure LibScrapeResult where
  success : Bool
  data : AdaptiveParser.PageScrapedData
  timestamp : Nat
  source : String
deriving DecidableEq, Repr

/-- LibrarySystem.getScrapeData of the platforms variant.  NOTE: unlike
every LearnUs operation and the room operations of this very class, this
operation has no authentication gate — the isAuthenticated flag (kept as a
parameter to mirror the method receiver) is never consulted and the page
fetch through ContentExplorer.fetchPage is issued regardless; the catch
rethrows any error unchanged. -/
def getScrapeData (isAuthenticated : Bool) (url : String)
    (net : String → Except AxiosErr AdaptiveParser.PageDoc) (now : Nat) :
    Except ScrapeErr LibScrapeResult × List String :=
  match ContentExplorer.fetchPage net url with
  | (.error e, reqs) => (.error e, reqs)
  | (.ok page, reqs) =>
      match AdaptiveParser.parsePage page "portal" now with
      | .error e => (.error e, reqs)
      | .ok data =>
          (.ok { success := true, data := data, timestamp := now,
                 source := "LibrarySystem" }, reqs)

/-- LibrarySystem.getLibraryResourceStatus.  NOTE: no authentication gate
either — it fetches URLManager.getFullUrl of /status through
ContentExplorer.fetchPage regardless of the flag (the local url binding of
the source is inlined); the catch rethrows any error unchanged. -/
def getLibraryResourceStatus (isAuthenticated : Bool) (baseUrl : String)
    (net : String → Except AxiosErr AdaptiveParser.LibDoc) (now : Nat) :
    Except ScrapeErr AdaptiveParser.LibraryResource × List String :=
  match ContentExplorer.fetchPage net (URLManager.getFullUrl baseUrl "/status") with
  | (.error e, reqs) => (.error e, reqs)
  | (.ok doc, reqs) =>
      match AdaptiveParser.parseLibraryStatus doc now with
      | .error e => (.error e, reqs)
      | .ok data => (.ok data, reqs)

end LibrarySystem


/-! Helper lemmas about the JavaScript Set and Map models. -/

theorem jsSetDedupAux_congr {α : Type} [DecidableEq α] (l : List α) :
    ∀ seen seen₂ : List α, (∀ a : α, a ∈ seen ↔ a ∈ seen₂) →
      jsSetDedupAux seen l = jsSetDedupAux seen₂ l := by
  induction l with
  | nil => intro seen seen₂ _; rfl
  | cons x xs ih =>
      intro seen seen₂ h
      by_cases hx : x ∈ seen
      · simp only [jsSetDedupAux, if_pos hx, if_pos ((h x).mp hx)]
        exact ih seen seen₂ h
      · have hx₂ : x ∉ seen₂ := fun c => hx ((h x).mpr c)
        simp only [jsSetDedupAux, if_neg hx, if_neg hx₂]
        refine congrArg (x :: ·) (ih _ _ ?_)
        intro a
        simp only [List.mem_append, List.mem_singleton, h a]

theorem jsSetDedupAux_cons {α : Type} [DecidableEq α] (seen : List α) (x : α)
    (xs : List α) :
    jsSetDedupAux seen (x :: xs) =
      if x ∈ seen then jsSetDedupAux seen xs
      else x :: jsSetDedupAux (seen ++ [x]) xs := rfl

theorem jsSetDedupAux_append {α : Type} [DecidableEq α] (l₁ : List α) :
    ∀ (seen l₂ : List α),
      jsSetDedupAux seen (l₁ ++ l₂) =
        jsSetDedupAux seen l₁ ++ jsSetDedupAux (seen ++ l₁) l₂ := by
  induction l₁ with
  | nil =>
      intro seen l₂
      simp only [List.nil_append, List.append_nil, jsSetDedupAux]
  | cons x xs ih =>
      intro seen l₂
      rw [List.cons_append]
      by_cases hx : x ∈ seen
      · rw [jsSetDedupAux_cons, jsSetDedupAux_cons, if_pos hx, if_pos hx, ih]
        have hm : ∀ a : α, a ∈ seen ++ xs ↔ a ∈ seen ++ x :: xs := by
          intro a
          simp only [List.mem_append, List.mem_cons]
          constructor
          · rintro (h | h)
            · exact Or.inl h
            · exact Or.inr (Or.inr h)
          · rintro (h | h | h)
            · exact Or.inl h
            · exact Or.inl (h ▸ hx)
            · exact Or.inr h
        rw [jsSetDedupAux_congr l₂ (seen ++ xs) (seen ++ x :: xs) hm]
      · rw [jsSetDedupAux_cons, jsSetDedupAux_cons, if_neg hx, if_neg hx, ih,
          List.cons_append]
        have hm : ∀ a : α, a ∈ (seen ++ [x]) ++ xs ↔ a ∈ seen ++ x :: xs := by
          intro a
          simp only [List.mem_append, List.mem_singleton, List.mem_cons]
          tauto
        rw [jsSetDedupAux_congr l₂ ((seen ++ [x]) ++ xs) (seen ++ x :: xs) hm]

theorem jsSetDedupAux_all_seen {α : Type} [DecidableEq α] (l : List α) :
    ∀ seen : List α, (∀ a ∈ l, a ∈ seen) → jsSetDedupAux seen l = [] := by
  induction l with
  | nil => intro seen _; rfl
  | cons x xs ih =>
      intro seen h
      simp only [jsSetDedupAux, if_pos (h x (List.mem_cons_self x xs))]
      exact ih seen fun a ha => h a (List.mem_cons_of_mem x ha)

theorem jsSetDedupAux_fresh {α : Type} [DecidableEq α] (l : List α) :
    ∀ seen : List α, l.Nodup → (∀ a ∈ l, a ∉ seen) → jsSetDedupAux seen l = l := by
  induction l with
  | nil => intro seen _ _; rfl
  | cons x xs ih =>
      intro seen hnd h
      simp only [jsSetDedupAux, if_neg (h x (List.mem_cons_self x xs))]
      refine congrArg (x :: ·) (ih _ (List.nodup_cons.mp hnd).2 ?_)
      intro a ha
      simp only [List.mem_append, List.mem_singleton]
      rintro (hs | hax)
      · exact h a (List.mem_cons_of_mem x ha) hs
      · exact (List.nodup_cons.mp hnd).1 (hax ▸ ha)

theorem jsSetDedup_self_append {α : Type} [DecidableEq α] (l : List α)
    (h : l.Nodup) : jsSetDedup (l ++ l) = l := by
  unfold jsSetDedup
  rw [jsSetDedupAux_append l [] l]
  rw [jsSetDedupAux_fresh l [] h (by intro a _ c; exact (List.not_mem_nil a) c)]
  rw [jsSetDedupAux_all_seen l ([] ++ l) (by intro a ha; simpa using ha)]
  exact List.append_nil l

theorem mapLookup_mapDelete_self {β : Type} (l : List (String × β)) (k : String) :
    mapLookup (mapDelete l k) k = none := by
  induction l with
  | nil => rfl
  | cons p ps ih =>
      by_cases hp : p.1 = k
      · simpa [mapDelete, hp] using ih
      · simpa [mapDelete, mapLookup, hp] using ih

theorem mapDelete_length_le {β : Type} (l : List (String × β)) (k : String) :
    (mapDelete l k).length ≤ l.length :=
  List.length_filter_le _ l


theorem mapDelete_length_lt_of_mem {β : Type} {l : List (String × β)}
    {p : String × β} {k : String} (hp : p ∈ l) (hk : p.1 = k) :
    (mapDelete l k).length < l.length := by
  induction l with
  | nil => cases hp
  | cons q qs ih =>
      rcases List.mem_cons.mp hp with h | h
      · subst h
        have he : mapDelete (p :: qs) k = mapDelete qs k := by
          simp [mapDelete, List.filter_cons, hk]
        rw [he, List.length_cons]
        exact Nat.lt_succ_of_le (mapDelete_length_le qs k)
      · by_cases hq : q.1 = k
        · have he : mapDelete (q :: qs) k = mapDelete qs k := by
            simp [mapDelete, List.filter_cons, hq]
          rw [he, List.length_cons]
          exact Nat.lt_succ_of_le (mapDelete_length_le qs k)
        · have he : mapDelete (q :: qs) k = q :: mapDelete qs k := by
            simp [mapDelete, List.filter_cons, hq]
          rw [he, List.length_cons, List.length_cons]
          exact Nat.succ_lt_succ (ih h)

theorem mapDelete_length_of_nodup {β : Type} {l : List (String × β)}
    {p : String × β} {k : String} (hnd : (l.map Prod.fst).Nodup)
    (hp : p ∈ l) (hk : p.1 = k) :
    (mapDelete l k).length + 1 = l.length := by
  induction l with
  | nil => cases hp
  | cons q qs ih =>
      rw [List.map_cons] at hnd
      have hnd₂ := List.nodup_cons.mp hnd
      rcases List.mem_cons.mp hp with h | h
      · subst h
        have hfree : mapDelete qs k = qs := by
          refine List.filter_eq_self.mpr ?_
          intro r hr
          have hrk : r.1 ≠ k := by
            intro hrk
            exact hnd₂.1 (hk ▸ hrk ▸ List.mem_map_of_mem Prod.fst hr)
          simpa using hrk
        have he : mapDelete (p :: qs) k = mapDelete qs k := by
          simp [mapDelete, List.filter_cons, hk]
        rw [he, hfree, List.length_cons]
      · have hq : q.1 ≠ k := by
          intro hqk
          refine hnd₂.1 ?_
          rw [hqk, ← hk]
          exact List.mem_map_of_mem Prod.fst h
        have he : mapDelete (q :: qs) k = q :: mapDelete qs k := by
          simp [mapDelete, List.filter_cons, hq]
        have hih := ih hnd₂.2 h
        rw [he, List.length_cons, List.length_cons]
        omega

theorem mapInsert_length_le {β : Type} (l : List (String × β)) (k : String)
    (v : β) : (mapInsert l k v).length ≤ l.length + 1 := by
  unfold mapInsert
  by_cases h : l.any (fun p => p.1 = k) = true
  · rw [if_pos h, List.length_map]
    exact Nat.le_succ _
  · rw [if_neg h, List.length_append]
    exact Nat.le_refl _

theorem mapLookup_of_mem_nodup {β : Type} {l : List (String × β)}
    {p : String × β} (hnd : (l.map Prod.fst).Nodup) (hp : p ∈ l) :
    mapLookup l p.1 = some p.2 := by
  induction l with
  | nil => cases hp
  | cons q qs ih =>
      rw [List.map_cons] at hnd
      have hnd₂ := List.nodup_cons.mp hnd
      rcases List.mem_cons.mp hp with h | h
      · subst h
        simp [mapLookup]
      · have hq : q.1 ≠ p.1 := by
          intro hqe
          exact hnd₂.1 (hqe ▸ List.mem_map_of_mem Prod.fst h)
        simp only [mapLookup, if_neg hq]
        exact ih hnd₂.2 h

theorem CacheManager.oldest_foldl_mem {α : Type}
    (es : List (String × CacheManager.CacheEntry α)) :
    ∀ e : String × CacheManager.CacheEntry α,
      es.foldl (fun best x => if x.2.timestamp < best.2.timestamp then x else best) e
        ∈ e :: es := by
  induction es with
  | nil => intro e; simp
  | cons a t ih =>
      intro e
      rw [List.foldl_cons]
      have h := ih (if a.2.timestamp < e.2.timestamp then a else e)
      rcases List.mem_cons.mp h with h | h
      · rw [h]
        by_cases hc : a.2.timestamp < e.2.timestamp
        · rw [if_pos hc]
          exact List.mem_cons_of_mem e (List.mem_cons_self a t)
        · rw [if_neg hc]
          exact List.mem_cons_self e (a :: t)
      · exact List.mem_cons_of_mem e (List.mem_cons_of_mem a h)

theorem CacheManager.oldest_foldl_min {α : Type}
    (es : List (String × CacheManager.CacheEntry α)) :
    ∀ (e : String × CacheManager.CacheEntry α), ∀ p ∈ e :: es,
      (es.foldl (fun best x => if x.2.timestamp < best.2.timestamp then x else best)
        e).2.timestamp ≤ p.2.timestamp := by
  induction es with
  | nil =>
      intro e p hp
      rcases List.mem_cons.mp hp with h | h
      · rw [h]
        exact Nat.le_refl _
      · cases h
  | cons a t ih =>
      intro e p hp
      rw [List.foldl_cons]
      have hje : (if a.2.timestamp < e.2.timestamp then a
          else e).2.timestamp ≤ e.2.timestamp := by
        split
        · next hc => exact Nat.le_of_lt hc
        · next => exact Nat.le_refl _
      have hja : (if a.2.timestamp < e.2.timestamp then a
          else e).2.timestamp ≤ a.2.timestamp := by
        split
        · next => exact Nat.le_refl _
        · next hc => exact Nat.le_of_not_lt hc
      have hres := ih (if a.2.timestamp < e.2.timestamp then a else e) _
        (List.mem_cons_self _ t)
      rcases List.mem_cons.mp hp with h | h
      · rw [h]
        exact Nat.le_trans hres hje
      · rcases List.mem_cons.mp h with h₂ | h₂
        · rw [h₂]
          exact Nat.le_trans hres hja
        · exact ih (if a.2.timestamp < e.2.timestamp then a else e) p
            (List.mem_cons_of_mem _ h₂)

theorem CacheManager.oldestKey_spec {α : Type}
    {l : List (String × CacheManager.CacheEntry α)} (hne : l ≠ []) :
    ∃ q ∈ l, CacheManager.oldestKey l = some q.1 ∧
      ∀ p ∈ l, q.2.timestamp ≤ p.2.timestamp := by
  cases l with
  | nil => exact absurd rfl hne
  | cons e es =>
      refine ⟨es.foldl (fun best x =>
          if x.2.timestamp < best.2.timestamp then x else best) e,
        CacheManager.oldest_foldl_mem es e, ?_,
        CacheManager.oldest_foldl_min es e⟩
      rfl

theorem CacheManager.set_entries {α : Type} (s : CacheManager.CacheState α)
    (k : String) (v : α) (now em : Nat) :
    (CacheManager.set s k v now em).entries =
      mapInsert (CacheManager.evictIfFull s).entries k
        (CacheManager.CacheEntry.mk v now (now + em * 60 * 1000)) := rfl

theorem CacheManager.evictIfFull_maxSize {α : Type}
    (s : CacheManager.CacheState α) :
    (CacheManager.evictIfFull s).maxSize = s.maxSize := by
  unfold CacheManager.evictIfFull
  split
  · split <;> rfl
  · rfl

theorem CacheManager.set_maxSize {α : Type} (s : CacheManager.CacheState α)
    (k : String) (v : α) (now em : Nat) :
    (CacheManager.set s k v now em).maxSize = s.maxSize := by
  have h : (CacheManager.set s k v now em).maxSize =
      (CacheManager.evictIfFull s).maxSize := rfl
  rw [h, CacheManager.evictIfFull_maxSize]

theorem CacheManager.set_length_le {α : Type} (s : CacheManager.CacheState α)
    (k : String) (v : α) (now em : Nat) (hmax : 1 ≤ s.maxSize)
    (hlen : s.entries.length ≤ s.maxSize) :
    (CacheManager.set s k v now em).entries.length ≤ s.maxSize := by
  rw [CacheManager.set_entries]
  have hinsert := mapInsert_length_le (CacheManager.evictIfFull s).entries k
    (CacheManager.CacheEntry.mk v now (now + em * 60 * 1000))
  by_cases hc : s.maxSize ≤ s.entries.length
  · have hlen₂ : s.entries.length = s.maxSize := Nat.le_antisymm hlen hc
    have hne : s.entries ≠ [] := by
      intro h0
      rw [h0] at hlen₂
      simp only [List.length_nil] at hlen₂
      omega
    obtain ⟨q, hq, hok, _⟩ := CacheManager.oldestKey_spec hne
    have hev : (CacheManager.evictIfFull s).entries = mapDelete s.entries q.1 := by
      unfold CacheManager.evictIfFull
      rw [if_pos hc, hok]
    have hdel := mapDelete_length_lt_of_mem hq rfl
    rw [hev] at hinsert ⊢
    omega
  · have hev : CacheManager.evictIfFull s = s := by
      unfold CacheManager.evictIfFull
      rw [if_neg hc]
    rw [hev] at hinsert ⊢
    omega

theorem CacheManager.setMany_maxSize {α : Type} :
    ∀ (ops : List (CacheManager.SetOp α)) (s : CacheManager.CacheState α),
      (CacheManager.setMany s ops).maxSize = s.maxSize := by
  intro ops
  induction ops with
  | nil => intro s; rfl
  | cons op ops ih =>
      intro s
      have h : CacheManager.setMany s (op :: ops) =
          CacheManager.setMany (CacheManager.set s op.key op.data op.now
            op.expiryMinutes) ops := rfl
      rw [h, ih, CacheManager.set_maxSize]

theorem CacheManager.setMany_length_le {α : Type} :
    ∀ (ops : List (CacheManager.SetOp α)) (s : CacheManager.CacheState α),
      1 ≤ s.maxSize → s.entries.length ≤ s.maxSize →
      (CacheManager.setMany s ops).entries.length ≤ s.maxSize := by
  intro ops
  induction ops with
  | nil => intro s _ hlen; exact hlen
  | cons op ops ih =>
      intro s hmax hlen
      have h : CacheManager.setMany s (op :: ops) =
          CacheManager.setMany (CacheManager.set s op.key op.data op.now
            op.expiryMinutes) ops := rfl
      rw [h]
      have hmax₂ : 1 ≤ (CacheManager.set s op.key op.data op.now
          op.expiryMinutes).maxSize := by
        rw [CacheManager.set_maxSize]; exact hmax
      have hlen₂ := CacheManager.set_length_le s op.key op.data op.now
        op.expiryMinutes hmax hlen
      have := ih (CacheManager.set s op.key op.data op.now op.expiryMinutes)
        hmax₂ (by rw [CacheManager.set_maxSize]; exact hlen₂)
      rw [CacheManager.set_maxSize] at this
      exact this

theorem CacheManager.get_absent {α : Type} {s : CacheManager.CacheState α}
    {k : String} {now : Nat} (hl : mapLookup s.entries k = none) :
    CacheManager.get s k now = (none, s) := by
  unfold CacheManager.get
  rw [hl]

theorem CacheManager.get_live {α : Type} {s : CacheManager.CacheState α}
    {k : String} {now : Nat} {e : CacheManager.CacheEntry α}
    (hl : mapLookup s.entries k = some e) (h : ¬ e.expiry < now) :
    CacheManager.get s k now =
      (some ⟨true, e.data, e.timestamp, "cache"⟩, s) := by
  unfold CacheManager.get
  rw [hl]
  exact if_neg h

theorem CacheManager.get_expired {α : Type} {s : CacheManager.CacheState α}
    {k : String} {now : Nat} {e : CacheManager.CacheEntry α}
    (hl : mapLookup s.entries k = some e) (h : e.expiry < now) :
    CacheManager.get s k now =
      (none, { s with entries := mapDelete s.entries k }) := by
  unfold CacheManager.get
  rw [hl]
  exact if_pos h

/-- Claim C2: CacheManager.get returns a miss whenever the key is absent or
the current time is strictly past the stored expiry; an expired entry is
deleted by that very read; and whenever get does return a hit, the looked-up
entry satisfies now less-or-equal expiry and the hit carries exactly its
data, with the state untouched — so get never returns a cache entry past
its expiry. -/
theorem cacheManager_get_miss_on_absent_or_expired {α : Type}
    (s : CacheManager.CacheState α) (k : String) (now : Nat) :
    (∀ hit : CacheManager.CacheHit α, (CacheManager.get s k now).1 = some hit →
      ∃ e, mapLookup s.entries k = some e ∧ now ≤ e.expiry ∧
        hit.data = e.data ∧ (CacheManager.get s k now).2 = s) ∧
    (mapLookup s.entries k = none → CacheManager.get s k now = (none, s)) ∧
    (∀ e, mapLookup s.entries k = some e → e.expiry < now →
      (CacheManager.get s k now).1 = none ∧
      mapLookup (CacheManager.get s k now).2.entries k = none) := by
  refine ⟨?_, fun hl => CacheManager.get_absent hl, ?_⟩
  · intro hit hh
    cases hl : mapLookup s.entries k with
    | none =>
        rw [CacheManager.get_absent hl] at hh
        cases hh
    | some e =>
        by_cases hexp : e.expiry < now
        · rw [CacheManager.get_expired hl hexp] at hh
          cases hh
        · rw [CacheManager.get_live hl hexp] at hh ⊢
          have hhit := Option.some.inj hh
          refine ⟨e, ?_, Nat.le_of_not_lt hexp, ?_, rfl⟩
          · exact hl ▸ rfl
          · rw [← hhit]
  · intro e hl hexp
    rw [CacheManager.get_expired hl hexp]
    exact ⟨rfl, mapLookup_mapDelete_self s.entries k⟩

/-- Witness for C2: a concrete store holding one entry expired at time 10,
read at time 11: the read misses and the entry is gone afterwards. -/
theorem cacheManager_get_miss_witness :
    (CacheManager.get
      (CacheManager.CacheState.mk [("k", CacheManager.CacheEntry.mk (7 : Nat) 0 10)]
        30 1000) "k" 11).1 = none ∧
    mapLookup (CacheManager.get
      (CacheManager.CacheState.mk [("k", CacheManager.CacheEntry.mk (7 : Nat) 0 10)]
        30 1000) "k" 11).2.entries "k" = none :=
  (cacheManager_get_miss_on_absent_or_expired
      (CacheManager.CacheState.mk [("k", CacheManager.CacheEntry.mk (7 : Nat) 0 10)]
        30 1000) "k" 11).2.2
    (CacheManager.CacheEntry.mk 7 0 10) (by decide) (by decide)

/-- Claim C6: for a positive configured maximum size, when the store is
exactly at capacity CacheManager.set first evicts exactly one entry — one
whose creation timestamp is minimal (the first such in insertion order) —
before inserting, and the entry count stays within the maximum after the
set and after any further sequence of set operations.  The
unique-keys hypothesis is the JavaScript Map invariant; positivity excludes
maxSize zero, where the source eviction expression would throw on an empty
store. -/
theorem cacheManager_set_capacity_eviction_bound {α : Type}
    (s : CacheManager.CacheState α) (k : String) (v : α) (now em : Nat)
    (ops : List (CacheManager.SetOp α))
    (hmax : 1 ≤ s.maxSize)
    (hnodup : (s.entries.map Prod.fst).Nodup)
    (hlen : s.entries.length ≤ s.maxSize) :
    (s.entries.length = s.maxSize →
      ∃ q ∈ s.entries, CacheManager.oldestKey s.entries = some q.1 ∧
        (∀ p ∈ s.entries, q.2.timestamp ≤ p.2.timestamp) ∧
        (CacheManager.evictIfFull s).entries = mapDelete s.entries q.1 ∧
        (CacheManager.evictIfFull s).entries.length + 1 = s.maxSize) ∧
    (CacheManager.set s k v now em).entries.length ≤ s.maxSize ∧
    (CacheManager.setMany s ops).entries.length ≤ s.maxSize := by
  refine ⟨?_, CacheManager.set_length_le s k v now em hmax hlen,
    CacheManager.setMany_length_le ops s hmax hlen⟩
  intro hcap
  have hne : s.entries ≠ [] := by
    intro h0
    rw [h0] at hcap
    simp only [List.length_nil] at hcap
    omega
  obtain ⟨q, hq, hok, hmin⟩ := CacheManager.oldestKey_spec hne
  have hev : (CacheManager.evictIfFull s).entries = mapDelete s.entries q.1 := by
    unfold CacheManager.evictIfFull
    rw [if_pos (Nat.le_of_eq hcap.symm), hok]
  have hexact := mapDelete_length_of_nodup hnodup hq rfl
  refine ⟨q, hq, hok, hmin, hev, ?_⟩
  rw [hev]
  omega

/-- Witness for C6: a two-entry store with max size two (at capacity); a
further set keeps the count at two. -/
theorem cacheManager_set_capacity_witness :
    (CacheManager.set
      (CacheManager.CacheState.mk
        [("a", CacheManager.CacheEntry.mk (1 : Nat) 5 100),
         ("b", CacheManager.CacheEntry.mk (2 : Nat) 3 100)] 30 2)
      "c" 9 10 1).entries.length ≤ 2 :=
  (cacheManager_set_capacity_eviction_bound
      (CacheManager.CacheState.mk
        [("a", CacheManager.CacheEntry.mk (1 : Nat) 5 100),
         ("b", CacheManager.CacheEntry.mk (2 : Nat) 3 100)] 30 2)
      "c" 9 10 1 [CacheManager.SetOp.mk "d" 4 11 1]
      (by decide) (by decide) (by decide)).2.1

theorem UniversalScraper.getMoreDetailedDescription_self (d : Option String) :
    UniversalScraper.getMoreDetailedDescription d d = d := by
  unfold UniversalScraper.getMoreDetailedDescription
  by_cases h : jsFalsyStr d = true
  · rw [if_pos h]
  · rw [if_neg h, if_neg h, if_pos (Nat.le_refl _)]

theorem UniversalScraper.mergeCoursesInfo_self (c : CourseInfo)
    (h : c.schedule.Nodup) : UniversalScraper.mergeCoursesInfo c c = c := by
  unfold UniversalScraper.mergeCoursesInfo
  rw [jsSetDedup_self_append c.schedule h,
    UniversalScraper.getMoreDetailedDescription_self]

/-- Record A of the fill-in scenario in the claim: name X, empty
description. -/
def c3A : CourseInfo :=
  ⟨"eco101", "", "", "X", "", "", "", some "", 3, "", [], "learnus", 0, "신촌"⟩

/-- Record B of the fill-in scenario in the claim: same id, empty name,
description Y. -/
def c3B : CourseInfo :=
  ⟨"eco101", "", "", "", "", "", "", some "Y", 3, "", [], "portal", 0, "신촌"⟩

/-- Counterexample to C3 as stated: merging A (name X, description empty)
with B (same id, name empty, description Y) yields name empty — the
object-spread merge lets the second record overwrite the non-empty name
with an empty one; only the description is filled in. -/
theorem mergeCoursesInfo_drops_nonempty_name :
    (UniversalScraper.mergeCoursesInfo c3A c3B).name = "" ∧
    c3A.name = "X" ∧
    (UniversalScraper.mergeCoursesInfo c3A c3B).description = some "Y" := by
  refine ⟨rfl, rfl, ?_⟩
  show UniversalScraper.getMoreDetailedDescription (some "") (some "Y") = some "Y"
  decide

/-- Claim C3 amended: the course merge is field-level fill-in only for the
description (a non-empty description on either side never yields an empty
merged description) and unions the schedules; every scalar field, name
included, is last-write-wins — the second record value overwrites even when
empty.  On the claim scenario the merge yields name empty and description
Y. -/
theorem mergeCoursesInfo_description_fill_in (c1 c2 : CourseInfo)
    (h : jsFalsyStr c1.description = false ∨ jsFalsyStr c2.description = false) :
    (UniversalScraper.mergeCoursesInfo c1 c2).name = c2.name ∧
    jsFalsyStr (UniversalScraper.mergeCoursesInfo c1 c2).description = false := by
  refine ⟨rfl, ?_⟩
  show jsFalsyStr
    (UniversalScraper.getMoreDetailedDescription c1.description c2.description) = false
  unfold UniversalScraper.getMoreDetailedDescription
  cases hb1 : jsFalsyStr c1.description with
  | true =>
      rcases h with h₁ | h₂
      · rw [hb1] at h₁; cases h₁
      · simp [hb1, h₂]
  | false =>
      cases hb2 : jsFalsyStr c2.description with
      | true => simp [hb1, hb2]
      | false =>
          simp only [hb1, hb2, Bool.false_eq_true, if_false]
          split
          · exact hb1
          · exact hb2

/-- Witness for the amended C3 at the claim scenario records. -/
theorem mergeCoursesInfo_description_fill_in_witness :
    (UniversalScraper.mergeCoursesInfo c3A c3B).name = c3B.name ∧
    jsFalsyStr (UniversalScraper.mergeCoursesInfo c3A c3B).description = false :=
  mergeCoursesInfo_description_fill_in c3A c3B (Or.inr (by decide))

/-- First platform record of the commutativity scenario. -/
def c7A : CourseInfo :=
  ⟨"cs101", "", "", "X", "김교수", "2024-1", "", some "d", 3, "CS",
    ["월1"], "learnus", 0, "신촌"⟩

/-- Second platform record of the commutativity scenario: same id,
different name. -/
def c7B : CourseInfo :=
  ⟨"cs101", "", "", "Z", "김교수", "2024-1", "", some "d", 3, "CS",
    ["수3"], "portal", 0, "신촌"⟩

/-- Counterexample to C7 as stated: the merge of the two platform course
lists is not commutative — swapping the platform response order changes the
result, because every scalar field takes the second record value. -/
theorem mergeCourses_not_commutative :
    UniversalScraper.mergeCourses [c7A] [c7B] ≠
      UniversalScraper.mergeCourses [c7B] [c7A] := by decide

/-- A concrete record with duplicate-free schedule for the idempotence
witness. -/
def c7SelfCourse : CourseInfo :=
  ⟨"cs101", "", "", "자료구조", "김교수", "2024-1", "", some "d", 3, "CS",
    ["월1", "수3"], "learnus", 0, "신촌"⟩

/-- Claim C7 amended: merging a CourseRecord with itself yields the record
unchanged provided its schedule has no duplicate entries (self-merge can
only deduplicate the schedule), and the same holds through the list-level
mergeCourses; commutativity with respect to platform response order does
not hold (see the counterexample), since scalar fields are
last-write-wins. -/
theorem mergeCoursesInfo_idempotent_nodup (c : CourseInfo)
    (h : c.schedule.Nodup) :
    UniversalScraper.mergeCoursesInfo c c = c ∧
    UniversalScraper.mergeCourses [c] [c] = [c] := by
  have hm := UniversalScraper.mergeCoursesInfo_self c h
  refine ⟨hm, ?_⟩
  simp [UniversalScraper.mergeCourses, UniversalScraper.mergeStep,
    mapLookup, mapInsert, hm]

/-- Witness for the amended C7 at a concrete course record. -/
theorem mergeCoursesInfo_idempotent_witness :
    UniversalScraper.mergeCoursesInfo c7SelfCourse c7SelfCourse = c7SelfCourse ∧
    UniversalScraper.mergeCourses [c7SelfCourse] [c7SelfCourse] = [c7SelfCourse] :=
  mergeCoursesInfo_idempotent_nodup c7SelfCourse (by decide)

/-- Claim C8: file-size parsing maps 3.2MB to 3355443 bytes, 512KB to
524288 bytes, and unparseable text such as bogus to 0, with the unit table
B 1, KB 1024, MB 1024 squared, GB 1024 cubed. -/
theorem parseFileSize_unit_table :
    AdaptiveParser.parseFileSize "3.2MB" = some 3355443 ∧
    AdaptiveParser.parseFileSize "512KB" = some 524288 ∧
    AdaptiveParser.parseFileSize "bogus" = some 0 := by
  refine ⟨by decide, by decide, by decide⟩

/-- A document with no matching blocks at all: in particular the root
containers for assignments and notices are entirely absent. -/
def emptyDoc : AdaptiveParser.Doc := ⟨[], [], []⟩

/-- Counterexample to C5 as stated: on a document whose assignment and
notice containers are entirely absent, the extractor returns empty
collections and does not raise ParseError — the parsers map over the
class-selector matches and have no container check at all. -/
theorem parseAssignments_absent_container_returns_empty :
    AdaptiveParser.parseAssignments emptyDoc "learnus" "신촌" 0 = .ok [] ∧
    AdaptiveParser.parseNotices emptyDoc "learnus" "신촌" 0 = .ok [] :=
  ⟨rfl, rfl⟩

/-- Claim C5 amended: for every document the extractor returns a collection
with one record per matching block and never raises — courses, assignments
and notices alike; in particular zero matching blocks (an absent container
included) yield the empty collection, for assignments and notices just as
for courses, and ParseError is raised in no case. -/
theorem extract_zero_blocks_returns_empty_never_parse_error
    (doc : AdaptiveParser.Doc) (platform campus : String) (now : Nat) :
    (∃ l, AdaptiveParser.parseCourseList doc platform campus now = .ok l ∧
      l.length = doc.courseItems.length) ∧
    (∃ l, AdaptiveParser.parseAssignments doc platform campus now = .ok l ∧
      l.length = doc.assignmentItems.length) ∧
    (∃ l, AdaptiveParser.parseNotices doc platform campus now = .ok l ∧
      l.length = doc.noticeItems.length) := by
  refine ⟨⟨_, rfl, ?_⟩, ⟨_, rfl, ?_⟩, ⟨_, rfl, ?_⟩⟩ <;>
    simp [List.length_map, List.enum_length]


theorem LearnUs.authenticate_page_error (isAuth : Bool) (ae : AxiosErr)
    (cs : String → Option String) (po : Option String → Except AxiosErr String) :
    LearnUs.authenticate isAuth (.error ae) cs po =
      (.error (.authenticationError ("러너스 로그인 실패: " ++ ae.message)), isAuth) := rfl

theorem LearnUs.authenticate_post_error (isAuth : Bool) (pageBody : String)
    (cs : String → Option String) (po : Option String → Except AxiosErr String)
    (ae : AxiosErr) (hpo : po (cs pageBody) = .error ae) :
    LearnUs.authenticate isAuth (.ok pageBody) cs po =
      (.error (.authenticationError ("러너스 로그인 실패: " ++ ae.message)), isAuth) := by
  have h : LearnUs.authenticate isAuth (.ok pageBody) cs po =
      (match po (cs pageBody) with
        | .error e =>
            (.error (.authenticationError ("러너스 로그인 실패: " ++ e.message)), isAuth)
        | .ok respBody =>
            (.ok (jsIncludes respBody "로그아웃"), jsIncludes respBody "로그아웃")) := rfl
  rw [h, hpo]

theorem LearnUs.authenticate_post_ok (isAuth : Bool) (pageBody respBody : String)
    (cs : String → Option String) (po : Option String → Except AxiosErr String)
    (hpo : po (cs pageBody) = .ok respBody) :
    LearnUs.authenticate isAuth (.ok pageBody) cs po =
      (.ok (jsIncludes respBody "로그아웃"), jsIncludes respBody "로그아웃") := by
  have h : LearnUs.authenticate isAuth (.ok pageBody) cs po =
      (match po (cs pageBody) with
        | .error e =>
            (.error (.authenticationError ("러너스 로그인 실패: " ++ e.message)), isAuth)
        | .ok respBody =>
            (.ok (jsIncludes respBody "로그아웃"), jsIncludes respBody "로그아웃")) := rfl
  rw [h, hpo]

/-- Claim C10: whenever authenticate throws (the login-page GET or the login
POST fails), the authenticated flag keeps exactly the value it had before
the call — first-time failure stays unauthenticated, failed re-login stays
authenticated — and on a throw-free run the flag is assigned exactly from
the logout-marker check of the login response body. -/
theorem learnus_authenticate_flag_only_from_success
    (isAuthenticated : Bool) (loginPageGet : Except AxiosErr String)
    (csrfOf : String → Option String)
    (loginPost : Option String → Except AxiosErr String) :
    (∀ e, (LearnUs.authenticate isAuthenticated loginPageGet csrfOf loginPost).1 =
        .error e →
      (LearnUs.authenticate isAuthenticated loginPageGet csrfOf loginPost).2 =
        isAuthenticated) ∧
    (∀ pageBody respBody, loginPageGet = .ok pageBody →
      loginPost (csrfOf pageBody) = .ok respBody →
      LearnUs.authenticate isAuthenticated loginPageGet csrfOf loginPost =
        (.ok (jsIncludes respBody "로그아웃"), jsIncludes respBody "로그아웃")) := by
  constructor
  · intro e he
    cases hpg : loginPageGet with
    | error ae =>
        rw [LearnUs.authenticate_page_error]
    | ok pageBody =>
        cases hpo : loginPost (csrfOf pageBody) with
        | error ae =>
            rw [LearnUs.authenticate_post_error isAuthenticated pageBody
              csrfOf loginPost ae hpo]
        | ok respBody =>
            rw [hpg, LearnUs.authenticate_post_ok isAuthenticated pageBody respBody
              csrfOf loginPost hpo] at he
            cases he
  · intro pageBody respBody hpg hpo
    rw [hpg, LearnUs.authenticate_post_ok isAuthenticated pageBody respBody
      csrfOf loginPost hpo]

/-- Witness for C10: a previously authenticated session whose login-page GET
times out stays marked authenticated, and a fresh unauthenticated session
stays unauthenticated under the same failure. -/
theorem learnus_authenticate_flag_witness :
    (LearnUs.authenticate true (.error ⟨"timeout of 10000ms exceeded", none, none⟩)
      (fun _ => none) (fun _ => .ok "")).2 = true ∧
    (LearnUs.authenticate false (.error ⟨"timeout of 10000ms exceeded", none, none⟩)
      (fun _ => none) (fun _ => .ok "")).2 = false :=
  ⟨(learnus_authenticate_flag_only_from_success true
      (.error ⟨"timeout of 10000ms exceeded", none, none⟩)
      (fun _ => none) (fun _ => .ok "")).1 _ rfl,
    (learnus_authenticate_flag_only_from_success false
      (.error ⟨"timeout of 10000ms exceeded", none, none⟩)
      (fun _ => none) (fun _ => .ok "")).1 _ rfl⟩

/-- NetworkError the LearnUs getCourses call rejects with in the C1
failing-input evaluation. -/
def c1NetErr : ScrapeErr :=
  .networkError "강좌 목록 가져오기 실패: connect ECONNREFUSED" "request" none (some 503)

/-- The course the portal resolves with in the C1 failing-input
evaluation. -/
def c1Course : CourseInfo :=
  ⟨"phy201", "", "", "일반물리학", "박교수", "2024-1", "", some "", 3, "PHY",
    [], "portal", 0, "신촌"⟩

/-- Successful portal resolution of the C1 failing input. -/
def c1PortalResult : PlatformResult (List CourseInfo) :=
  ⟨true, some [c1Course], 0, "YonseiPortal"⟩

/-- Empty cache state for the C1 evaluation. -/
def c1EmptyCache : CacheManager.CacheState UniversalScraper.AllCoursesResult :=
  ⟨[], 30, 1000⟩

/-- Claim C1, evaluated at the failing input: with the LearnUs getCourses
call rejecting with a NetworkError while the portal call resolves
successfully with one course, getAllCourses rejects with that NetworkError
instead of returning the portal records annotated with per-platform
metadata — Promise.all propagates the first rejection, and because the
platform getCourses implementations throw on failure instead of resolving
with success false, the partial-failure branch and the platforms metadata
of getAllCourses are unreachable for partial failures. -/
theorem getAllCourses_raises_on_partial_failure :
    (UniversalScraper.getAllCourses (.error c1NetErr) (.ok c1PortalResult)
      ⟨false, false⟩ c1EmptyCache 0 30).1 = .error c1NetErr ∧
    c1PortalResult.success = true ∧
    (UniversalScraper.getAllCourses (.ok c1PortalResult) (.error c1NetErr)
      ⟨false, false⟩ c1EmptyCache 0 30).1 = .error c1NetErr :=
  ⟨rfl, rfl, rfl⟩

/-- Categories the scrapeByCategory switch actually dispatches. -/
def handledCategories : List String :=
  ["notices", "academic", "scholarship", "course", "assignment", "library"]

/-- Portal oracle that succeeds with one notice item. -/
def c9PortalOk :
    String → BackendWebScrapingService.ScrapingConfigM →
      Except ScrapeErr BackendWebScrapingService.PortalData :=
  fun _ _ => .ok (.array [⟨"n1", some "notice", some "portal", some "notice"⟩])

/-- LearnUs oracle never reached in the C9 evaluations. -/
def c9LearnusDead :
    String → BackendWebScrapingService.ScrapingConfigM →
      Except ScrapeErr BackendWebScrapingService.PortalData :=
  fun _ _ => .error (.genericError "not called")

/-- Library oracle never reached in the C9 evaluations. -/
def c9LibraryDead :
    String → BackendWebScrapingService.ScrapingConfigM →
      Except ScrapeErr BackendWebScrapingService.LibraryResource :=
  fun _ _ => .error (.genericError "not called")

/-- Counterexample to C9 as stated: the category string notices lies
outside the fixed vocabulary of the spec (which has the singular notice),
yet scrapeByCategory dispatches it to the portal and, when the portal call
succeeds, resolves successfully — no configuration error is raised. -/
theorem scrapeByCategory_notices_outside_vocabulary_succeeds :
    "notices" ∉ specFixedCategoryVocabulary ∧
    (∃ r, BackendWebScrapingService.scrapeByCategory c9PortalOk c9LearnusDead
      c9LibraryDead "notices" "신촌" 20 0 = .ok r) := by
  refine ⟨by decide, ⟨_, rfl⟩⟩

/-- Claim C9 amended: for every category outside the set the dispatch
switch actually handles — notices, academic, scholarship, course,
assignment, library — scrapeByCategory raises a plain error whose message
names the unknown category, and that error is distinct from every platform
error kind: it is no NetworkError, no ParseError and no
AuthenticationError.  (The switch key for notices is the plural form; the
vocabulary word notice itself takes this unknown-category path.) -/
theorem scrapeByCategory_unknown_category_config_error
    (category : String) (hcat : category ∉ handledCategories)
    (portalO learnusO : String → BackendWebScrapingService.ScrapingConfigM →
      Except ScrapeErr BackendWebScrapingService.PortalData)
    (libraryO : String → BackendWebScrapingService.ScrapingConfigM →
      Except ScrapeErr BackendWebScrapingService.LibraryResource)
    (campus : String) (count now : Nat) :
    BackendWebScrapingService.scrapeByCategory portalO learnusO libraryO
        category campus count now =
      .error (.genericError
        ("Failed to scrape " ++ category ++ ": " ++
          ("Unknown category: " ++ category))) ∧
    (∀ m k ra sc, ScrapeErr.genericError
        ("Failed to scrape " ++ category ++ ": " ++
          ("Unknown category: " ++ category)) ≠ .networkError m k ra sc) ∧
    (∀ m, ScrapeErr.genericError
        ("Failed to scrape " ++ category ++ ": " ++
          ("Unknown category: " ++ category)) ≠ .parseError m) ∧
    (∀ m, ScrapeErr.genericError
        ("Failed to scrape " ++ category ++ ": " ++
          ("Unknown category: " ++ category)) ≠ .authenticationError m) := by
  have h1 : category ≠ "notices" := fun h => hcat (by rw [h]; decide)
  have h2 : category ≠ "academic" := fun h => hcat (by rw [h]; decide)
  have h3 : category ≠ "scholarship" := fun h => hcat (by rw [h]; decide)
  have h4 : category ≠ "course" := fun h => hcat (by rw [h]; decide)
  have h5 : category ≠ "assignment" := fun h => hcat (by rw [h]; decide)
  have h6 : category ≠ "library" := fun h => hcat (by rw [h]; decide)
  refine ⟨?_, ?_, ?_, ?_⟩
  · simp [BackendWebScrapingService.scrapeByCategory, h1, h2, h3, h4, h5, h6,
      ScrapeErr.message]
  · intro m k ra sc
    simp
  · intro m
    simp
  · intro m
    simp

/-- Witness for the amended C9 at the concrete category bogus. -/
theorem scrapeByCategory_unknown_category_witness :
    BackendWebScrapingService.scrapeByCategory c9PortalOk c9LearnusDead
        c9LibraryDead "bogus" "신촌" 20 0 =
      .error (.genericError
        ("Failed to scrape " ++ "bogus" ++ ": " ++
          ("Unknown category: " ++ "bogus"))) :=
  (scrapeByCategory_unknown_category_config_error "bogus" (by decide)
    c9PortalOk c9LearnusDead c9LibraryDead "신촌" 20 0).1

theorem ContentExplorer.fetchPage_error {π : Type}
    (net : String → Except AxiosErr π) (url : String) (ae : AxiosErr)
    (h : net url = .error ae) :
    ContentExplorer.fetchPage net url =
      (.error (.networkError ("페이지 가져오기 실패: " ++ ae.message) "request"
        ae.retryAfter ae.statusCode), [url]) := by
  unfold ContentExplorer.fetchPage
  rw [h]

theorem ContentExplorer.fetchPage_ok {π : Type}
    (net : String → Except AxiosErr π) (url : String) (page : π)
    (h : net url = .ok page) :
    ContentExplorer.fetchPage net url = (.ok page, [url]) := by
  unfold ContentExplorer.fetchPage
  rw [h]

theorem LibrarySystem.getScrapeData_net_error (auth : Bool) (url : String)
    (net : String → Except AxiosErr AdaptiveParser.PageDoc) (now : Nat)
    (ae : AxiosErr) (h : net url = .error ae) :
    LibrarySystem.getScrapeData auth url net now =
      (.error (.networkError ("페이지 가져오기 실패: " ++ ae.message) "request"
        ae.retryAfter ae.statusCode), [url]) := by
  unfold LibrarySystem.getScrapeData
  rw [ContentExplorer.fetchPage_error net url ae h]

theorem LibrarySystem.getScrapeData_net_ok (auth : Bool) (url : String)
    (net : String → Except AxiosErr AdaptiveParser.PageDoc) (now : Nat)
    (page : AdaptiveParser.PageDoc) (h : net url = .ok page) :
    ∃ r, LibrarySystem.getScrapeData auth url net now = (.ok r, [url]) := by
  unfold LibrarySystem.getScrapeData
  rw [ContentExplorer.fetchPage_ok net url page h]
  exact ⟨_, rfl⟩

theorem LibrarySystem.getLibraryResourceStatus_net_error (auth : Bool)
    (baseUrl : String) (net : String → Except AxiosErr AdaptiveParser.LibDoc)
    (now : Nat) (ae : AxiosErr)
    (h : net (URLManager.getFullUrl baseUrl "/status") = .error ae) :
    LibrarySystem.getLibraryResourceStatus auth baseUrl net now =
      (.error (.networkError ("페이지 가져오기 실패: " ++ ae.message) "request"
        ae.retryAfter ae.statusCode), [URLManager.getFullUrl baseUrl "/status"]) := by
  unfold LibrarySystem.getLibraryResourceStatus
  rw [ContentExplorer.fetchPage_error net (URLManager.getFullUrl baseUrl "/status") ae h]

theorem LibrarySystem.getLibraryResourceStatus_net_ok (auth : Bool)
    (baseUrl : String) (net : String → Except AxiosErr AdaptiveParser.LibDoc)
    (now : Nat) (doc : AdaptiveParser.LibDoc)
    (h : net (URLManager.getFullUrl baseUrl "/status") = .ok doc) :
    ∃ r, LibrarySystem.getLibraryResourceStatus auth baseUrl net now =
      (.ok r, [URLManager.getFullUrl baseUrl "/status"]) := by
  unfold LibrarySystem.getLibraryResourceStatus
  rw [ContentExplorer.fetchPage_ok net (URLManager.getFullUrl baseUrl "/status") doc h]
  exact ⟨_, rfl⟩

/-- Page oracle for the C4 evaluations: the library board page fetches
successfully. -/
def c4PageNet : String → Except AxiosErr AdaptiveParser.PageDoc :=
  fun _ => .ok ⟨"도서관 공지", "이용 안내", "본문"⟩

/-- Library status oracle for the C4 evaluations. -/
def c4LibNet : String → Except AxiosErr AdaptiveParser.LibDoc :=
  fun _ => .ok ⟨[], [], ⟨[], [], []⟩⟩

/-- LearnUs fetch oracle never reached in the C4 evaluations. -/
def c4FetchDead : String → Except AxiosErr AdaptiveParser.Doc :=
  fun _ => .error ⟨"unused", none, none⟩

/-- Rooms fetch oracle never reached in the C4 evaluations. -/
def c4RoomsDead : String → Except AxiosErr LibrarySystem.RoomsDoc :=
  fun _ => .error ⟨"unused", none, none⟩

/-- Counterexample to C4 as stated: the LibrarySystem data operations
getScrapeData and getLibraryResourceStatus have no authentication gate —
invoked while the session is unauthenticated they issue their network
request (the requested URL list is non-empty) and resolve successfully,
raising no AuthenticationError. -/
theorem librarySystem_unauthenticated_operations_fetch :
    (LibrarySystem.getScrapeData false "https://library.yonsei.ac.kr/board"
      c4PageNet 0).2 = ["https://library.yonsei.ac.kr/board"] ∧
    (∃ r, (LibrarySystem.getScrapeData false "https://library.yonsei.ac.kr/board"
      c4PageNet 0).1 = .ok r) ∧
    (LibrarySystem.getLibraryResourceStatus false "https://library.yonsei.ac.kr"
      c4LibNet 0).2 = ["https://library.yonsei.ac.kr/status"] ∧
    (∃ r, (LibrarySystem.getLibraryResourceStatus false "https://library.yonsei.ac.kr"
      c4LibNet 0).1 = .ok r) := by
  exact ⟨rfl, ⟨_, rfl⟩, rfl, ⟨_, rfl⟩⟩

/-- Claim C4 amended: the LearnUs data operations (getScrapeData,
getCourses, getAssignments, scrapeCourseNotices) and the LibrarySystem room
listing getRooms check the authenticated flag before anything else —
invoked unauthenticated they fail with AuthenticationError and issue no
network request.  The LibrarySystem page-fetch operations are the
exception: getScrapeData and getLibraryResourceStatus have no
authentication gate, so invoked unauthenticated they issue exactly their
page fetch regardless of the flag and never raise AuthenticationError (any
failure of theirs is the NetworkError of the fetch). -/
theorem platform_data_operations_auth_gate_except_library
    (fetch : String → Except AxiosErr AdaptiveParser.Doc)
    (roomsFetch : String → Except AxiosErr LibrarySystem.RoomsDoc)
    (pageNet : String → Except AxiosErr AdaptiveParser.PageDoc)
    (libNet : String → Except AxiosErr AdaptiveParser.LibDoc)
    (cache : List (String × LearnUs.LScrapedData))
    (category campus courseId url baseUrl : String) (now : Nat) :
    (LearnUs.getScrapeData false cache category campus fetch now =
      (.error (.authenticationError "인증이 필요합니다"), cache, [])) ∧
    (LearnUs.getCourses false fetch now =
      (.error (.authenticationError "인증이 필요합니다"), [])) ∧
    (LearnUs.getAssignments false courseId fetch now =
      (.error (.authenticationError "인증이 필요합니다"), [])) ∧
    (LearnUs.scrapeCourseNotices false courseId fetch now =
      (.error (.authenticationError "인증이 필요합니다"), [])) ∧
    (LibrarySystem.getRooms false roomsFetch now =
      (.error (.authenticationError "인증이 필요합니다"), [])) ∧
    ((LibrarySystem.getScrapeData false url pageNet now).2 = [url] ∧
      ∀ e, (LibrarySystem.getScrapeData false url pageNet now).1 = .error e →
        ∃ m k ra sc, e = ScrapeErr.networkError m k ra sc) ∧
    ((LibrarySystem.getLibraryResourceStatus false baseUrl libNet now).2 =
        [URLManager.getFullUrl baseUrl "/status"] ∧
      ∀ e, (LibrarySystem.getLibraryResourceStatus false baseUrl libNet now).1 =
          .error e →
        ∃ m k ra sc, e = ScrapeErr.networkError m k ra sc) := by
  refine ⟨rfl, rfl, rfl, rfl, rfl, ⟨?_, ?_⟩, ⟨?_, ?_⟩⟩
  · cases h : pageNet url with
    | error ae => rw [LibrarySystem.getScrapeData_net_error false url pageNet now ae h]
    | ok page =>
        obtain ⟨r, hr⟩ := LibrarySystem.getScrapeData_net_ok false url pageNet now page h
        rw [hr]
  · intro e he
    cases h : pageNet url with
    | error ae =>
        rw [LibrarySystem.getScrapeData_net_error false url pageNet now ae h] at he
        exact ⟨_, _, _, _, (Except.error.inj he).symm⟩
    | ok page =>
        obtain ⟨r, hr⟩ := LibrarySystem.getScrapeData_net_ok false url pageNet now page h
        rw [hr] at he
        cases he
  · cases h : libNet (URLManager.getFullUrl baseUrl "/status") with
    | error ae =>
        rw [LibrarySystem.getLibraryResourceStatus_net_error false baseUrl libNet now ae h]
    | ok doc =>
        obtain ⟨r, hr⟩ :=
          LibrarySystem.getLibraryResourceStatus_net_ok false baseUrl libNet now doc h
        rw [hr]
  · intro e he
    cases h : libNet (URLManager.getFullUrl baseUrl "/status") with
    | error ae =>
        rw [LibrarySystem.getLibraryResourceStatus_net_error false baseUrl libNet
          now ae h] at he
        exact ⟨_, _, _, _, (Except.error.inj he).symm⟩
    | ok doc =>
        obtain ⟨r, hr⟩ :=
          LibrarySystem.getLibraryResourceStatus_net_ok false baseUrl libNet now doc h
        rw [hr] at he
        cases he

/-- Witness for the amended C4: an unauthenticated LearnUs getCourses call
is rejected with no request issued, while the unauthenticated library
getScrapeData call issues exactly its page fetch. -/
theorem platform_data_operations_auth_gate_witness :
    LearnUs.getCourses false c4FetchDead 0 =
      (.error (.authenticationError "인증이 필요합니다"), []) ∧
    (LibrarySystem.getScrapeData false "https://library.yonsei.ac.kr/board"
      c4PageNet 0).2 = ["https://library.yonsei.ac.kr/board"] :=
  ⟨(platform_data_operations_auth_gate_except_library c4FetchDead c4RoomsDead
      c4PageNet c4LibNet [] "" "" "" "https://library.yonsei.ac.kr/board" "" 0).2.1,
    (platform_data_operations_auth_gate_except_library c4FetchDead c4RoomsDead
      c4PageNet c4LibNet [] "" "" "" "https://library.yonsei.ac.kr/board" "" 0).2.2.2.2.2.1.1⟩
